import Mathlib

set_option maxRecDepth 100000

/-!
Verification development for `src/scraper.py` (custom-scraper), a Flask +
Playwright service that renders JavaScript pages and serves RSS feeds.

The embedding is shallow: Python functions become Lean functions.  External
collaborators (Playwright browser, `urllib.parse.urljoin`, the `feedgen` RSS
serializer) are passed as explicit parameters or modeled as small state
machines.  Python floats used as timestamps are modeled as rationals; Python
exceptions are modeled as an explicit error value carrying the exception
class (as used by the `except` clauses of `create_feed`) and the message
text `str(e)` (as used by `_is_browser_crash`).
-/

/-- Exception class of a raised Python error, as discriminated by the
`except TimeoutError` / `except PlaywrightError` / `except Exception`
clauses of `create_feed` (`src/scraper.py` lines 285-297). -/
inductive PyErrClass where
  | timeoutError
  | playwrightError
  | otherError
  deriving DecidableEq, Repr

/-- A raised Python exception: its class and its message text `str(e)`. -/
structure PyErr where
  cls : PyErrClass
  msg : String
  deriving DecidableEq, Repr

/-- The keyword list of `_is_browser_crash` (`src/scraper.py` lines 112-116). -/
def crashKeywords : List String :=
  ["target closed", "browser has been closed", "connection closed",
   "target page, context or browser has been closed",
   "browser.newpage", "page.goto"]

/-- Substring test, modeling Python's `keyword in msg`: some suffix of the
haystack starts with the needle. -/
def containsSub (needle : List Char) : List Char → Bool
  | [] => needle.isEmpty
  | c :: t => needle.isPrefixOf (c :: t) || containsSub needle t

/-- `_is_browser_crash` (`src/scraper.py` lines 109-116): lowercase the
message (`str(error).lower()`, modeled for the ASCII letters that all the
keywords consist of) and test whether any keyword occurs as a substring. -/
def _is_browser_crash (e : PyErr) : Bool :=
  crashKeywords.any fun k => containsSub k.data (e.msg.data.map Char.toLower)

/-- State of the module-level browser singleton: `connected` is true when
`_browser` is not `None` and `_browser.is_connected()` holds
(`src/scraper.py` line 54).  The initial `_browser = None` state is
`connected = false`. -/
structure BrowserState where
  connected : Bool
  deriving DecidableEq, Repr

/-- `_get_browser` (`src/scraper.py` lines 50-59): return the browser if it
is connected, otherwise call `_force_restart_browser` (which launches a
fresh, connected browser).  The second component counts the
`_force_restart_browser` invocations this call performs (0 or 1). -/
def _get_browser (st : BrowserState) : BrowserState × Nat :=
  if st.connected then (st, 0) else ({connected := true}, 1)

/-- One scrape attempt as seen by `scrape_js_website`: the outcome of the
`_scrape_page(url, config)` call (navigation and extraction under a browser
that `_get_browser` just made live), and whether the browser is still
connected afterwards.  The attempt index (1 or 2) is the argument. -/
def AttemptRun : Type := Nat → Except PyErr (List String) × Bool

/-- `scrape_js_website` (`src/scraper.py` lines 199-215), with
`max_attempts = 2` unrolled: run `_scrape_page` (whose first action is
`_get_browser`); on an error classified by `_is_browser_crash` on a
non-final attempt, call `_force_restart_browser` and retry once; otherwise
re-raise.  `run n` abstracts the page work of the n-th `_scrape_page` call;
`items` is left abstract at this level (type `α`).  Returns the outcome,
the final browser state, and the total number of `_force_restart_browser`
invocations performed during the call (by `_get_browser` and by the retry
logic). -/
def scrape_js_website {α : Type} (run : Nat → Except PyErr α × Bool)
    (st : BrowserState) : Except PyErr α × BrowserState × Nat :=
  let r1 := (_get_browser st).2
  let (out1, alive1) := run 1
  match out1 with
  | Except.ok items => (Except.ok items, {connected := alive1}, r1)
  | Except.error e =>
    if _is_browser_crash e then
      -- attempt 1 < max_attempts: _force_restart_browser(), then retry.
      let r2 := (_get_browser {connected := true}).2
      let (out2, alive2) := run 2
      (out2, {connected := alive2}, r1 + 1 + r2)
    else (Except.error e, {connected := alive1}, r1)

/-- Claim C1: an error of the first attempt that `_is_browser_crash` does
not classify as a crash (a `Timeout` or an `UnknownFailure`) is re-raised
immediately: the call returns that error, performs no
`_force_restart_browser` beyond the liveness relaunch `_get_browser` itself
may do on entry (none at all from a live browser), and never consults a
second attempt (the result is unchanged under any replacement of the
attempts after the first). -/
theorem C1_non_crash_errors_not_retried {α : Type}
    (run : Nat → Except PyErr α × Bool) (st : BrowserState) (e : PyErr)
    (h1 : (run 1).1 = Except.error e) (hc : _is_browser_crash e = false) :
    (scrape_js_website run st).1 = Except.error e ∧
    (scrape_js_website run st).2.2 = (_get_browser st).2 ∧
    ∀ run' : Nat → Except PyErr α × Bool, run' 1 = run 1 →
      scrape_js_website run' st = scrape_js_website run st := by
  refine ⟨?_, ?_, ?_⟩
  · simp only [scrape_js_website]
    rcases hr : run 1 with ⟨o1, a1⟩
    rw [hr] at h1
    simp only at h1
    subst h1
    simp [hc]
  · simp only [scrape_js_website]
    rcases hr : run 1 with ⟨o1, a1⟩
    rw [hr] at h1
    simp only at h1
    subst h1
    simp [hc]
  · intro run' hrr
    simp only [scrape_js_website, hrr]
    rcases hr : run 1 with ⟨o1, a1⟩
    rw [hr] at h1
    simp only at h1
    subst h1
    simp [hc]

/-- Concrete witness for C1: a timeout-class error whose message matches no
crash keyword, starting from a connected browser. -/
def cErrTimeout : PyErr := {cls := PyErrClass.timeoutError, msg := "Timeout 60000ms exceeded."}

/-- Concrete attempt family: first attempt fails with `cErrTimeout`, second
would succeed (and must never be reached for C1). -/
def cRunTimeout : Nat → Except PyErr (List String) × Bool := fun n =>
  if n = 1 then (Except.error cErrTimeout, true) else (Except.ok ["unreached"], true)

theorem C1_non_crash_errors_not_retried_witness :
    (cRunTimeout 1).1 = Except.error cErrTimeout ∧
    _is_browser_crash cErrTimeout = false ∧
    (scrape_js_website cRunTimeout {connected := true}).1 = Except.error cErrTimeout ∧
    (scrape_js_website cRunTimeout {connected := true}).2.2 =
      (_get_browser {connected := true}).2 :=
  ⟨rfl, by decide,
    (C1_non_crash_errors_not_retried cRunTimeout {connected := true} cErrTimeout rfl (by decide)).1,
    (C1_non_crash_errors_not_retried cRunTimeout {connected := true} cErrTimeout rfl (by decide)).2.1⟩

/-- Concrete crash-class error: its message matches the keyword
"target closed". -/
def cErrCrash : PyErr :=
  {cls := PyErrClass.playwrightError, msg := "Target closed"}

/-- Second concrete crash-class error, for the two-crash scenario. -/
def cErrCrash2 : PyErr :=
  {cls := PyErrClass.playwrightError, msg := "Browser has been closed"}

/-- Attempt family for the crash-then-success scenario: the first
`_scrape_page` call raises a crash-classified error (leaving the browser
disconnected), the second returns one item. -/
def cRunCrashOk : Nat → Except PyErr (List String) × Bool := fun n =>
  if n = 1 then (Except.error cErrCrash, false) else (Except.ok ["item1"], true)

/-- Attempt family for the two-crash scenario. -/
def cRunCrashCrash : Nat → Except PyErr (List String) × Bool := fun n =>
  if n = 1 then (Except.error cErrCrash, false) else (Except.error cErrCrash2, false)

/-- Counterexample to claim C3 as stated: started with a disconnected
browser (the module's initial `_browser = None` state, i.e. the first
request ever served), a call whose first attempt raises a crash-classified
error and whose second attempt succeeds does return the second attempt's
items, but `_force_restart_browser` is invoked twice during the call: once
by `_get_browser` (line 58) because the browser was not live, and once by
the retry logic of `scrape_js_website` (line 213). -/
theorem C3_counterexample :
    (cRunCrashOk 1).1 = Except.error cErrCrash ∧
    _is_browser_crash cErrCrash = true ∧
    (cRunCrashOk 2).1 = Except.ok ["item1"] ∧
    (scrape_js_website cRunCrashOk {connected := false}).1 = Except.ok ["item1"] ∧
    (scrape_js_website cRunCrashOk {connected := false}).2.2 = 2 :=
  ⟨rfl, by decide, rfl, rfl, by decide⟩

/-- Claim C3, amended: when the browser is live at the start of the call,
a crash-classified failure of the first attempt followed by a successful
second attempt makes `scrape_js_website` return the second attempt's item
list, with `_force_restart_browser` invoked exactly once during the call
(if the browser was dead on entry, `_get_browser` performs one additional
invocation). -/
theorem C3_crash_retry_returns_second_attempt {α : Type}
    (run : Nat → Except PyErr α × Bool) (st : BrowserState) (e : PyErr)
    (items : α)
    (hconn : st.connected = true)
    (h1 : (run 1).1 = Except.error e) (hc : _is_browser_crash e = true)
    (h2 : (run 2).1 = Except.ok items) :
    (scrape_js_website run st).1 = Except.ok items ∧
    (scrape_js_website run st).2.2 = 1 := by
  rcases hr1 : run 1 with ⟨o1, a1⟩
  rcases hr2 : run 2 with ⟨o2, a2⟩
  rw [hr1] at h1; rw [hr2] at h2
  simp only at h1 h2
  subst h1; subst h2
  constructor <;>
    simp [scrape_js_website, _get_browser, hr1, hr2, hc, hconn]

theorem C3_crash_retry_returns_second_attempt_witness :
    (cRunCrashOk 1).1 = Except.error cErrCrash ∧
    _is_browser_crash cErrCrash = true ∧
    (cRunCrashOk 2).1 = Except.ok ["item1"] ∧
    (scrape_js_website cRunCrashOk {connected := true}).1 = Except.ok ["item1"] ∧
    (scrape_js_website cRunCrashOk {connected := true}).2.2 = 1 :=
  ⟨rfl, by decide, rfl,
    (C3_crash_retry_returns_second_attempt cRunCrashOk {connected := true}
      cErrCrash ["item1"] rfl rfl (by decide) rfl).1,
    (C3_crash_retry_returns_second_attempt cRunCrashOk {connected := true}
      cErrCrash ["item1"] rfl rfl (by decide) rfl).2⟩

/-- Counterexample to claim C4 as stated: started with a disconnected
browser, two consecutive crash-classified failures make the call fail with
the second error, but the forced relaunch happens twice (once inside
`_get_browser`, once in the retry logic), not exactly once. -/
theorem C4_counterexample :
    (cRunCrashCrash 1).1 = Except.error cErrCrash ∧
    _is_browser_crash cErrCrash = true ∧
    (cRunCrashCrash 2).1 = Except.error cErrCrash2 ∧
    _is_browser_crash cErrCrash2 = true ∧
    (scrape_js_website cRunCrashCrash {connected := false}).1 =
      Except.error cErrCrash2 ∧
    (scrape_js_website cRunCrashCrash {connected := false}).2.2 = 2 :=
  ⟨rfl, by decide, rfl, by decide, rfl, by decide⟩

/-- Claim C4, amended: when the browser is live at the start of the call
and both attempts raise crash-classified errors, the second error (itself
classified as a browser crash) is raised to the caller, exactly one forced
relaunch and one retry happen, and no third attempt is consulted (the
result is unchanged under any replacement of the attempts after the
second).  If the browser was dead on entry, `_get_browser` performs one
additional relaunch. -/
theorem C4_double_crash_surfaces_second_error {α : Type}
    (run : Nat → Except PyErr α × Bool) (st : BrowserState) (e1 e2 : PyErr)
    (hconn : st.connected = true)
    (h1 : (run 1).1 = Except.error e1) (hc1 : _is_browser_crash e1 = true)
    (h2 : (run 2).1 = Except.error e2) (hc2 : _is_browser_crash e2 = true) :
    (scrape_js_website run st).1 = Except.error e2 ∧
    _is_browser_crash e2 = true ∧
    (scrape_js_website run st).2.2 = 1 ∧
    ∀ run' : Nat → Except PyErr α × Bool,
      run' 1 = run 1 → run' 2 = run 2 →
      scrape_js_website run' st = scrape_js_website run st := by
  rcases hr1 : run 1 with ⟨o1, a1⟩
  rcases hr2 : run 2 with ⟨o2, a2⟩
  rw [hr1] at h1; rw [hr2] at h2
  simp only at h1 h2
  subst h1; subst h2
  refine ⟨?_, hc2, ?_, ?_⟩
  · simp [scrape_js_website, _get_browser, hr1, hr2, hc1, hconn]
  · simp [scrape_js_website, _get_browser, hr1, hr2, hc1, hconn]
  · intro run' hrr1 hrr2
    simp [scrape_js_website, _get_browser, hrr1, hrr2, hr1, hr2, hc1, hconn]

theorem C4_double_crash_surfaces_second_error_witness :
    (cRunCrashCrash 1).1 = Except.error cErrCrash ∧
    _is_browser_crash cErrCrash = true ∧
    (cRunCrashCrash 2).1 = Except.error cErrCrash2 ∧
    _is_browser_crash cErrCrash2 = true ∧
    (scrape_js_website cRunCrashCrash {connected := true}).1 =
      Except.error cErrCrash2 ∧
    (scrape_js_website cRunCrashCrash {connected := true}).2.2 = 1 :=
  ⟨rfl, by decide, rfl, by decide,
    (C4_double_crash_surfaces_second_error cRunCrashCrash {connected := true}
      cErrCrash cErrCrash2 rfl rfl (by decide) rfl (by decide)).1,
    (C4_double_crash_surfaces_second_error cRunCrashCrash {connected := true}
      cErrCrash cErrCrash2 rfl rfl (by decide) rfl (by decide)).2.2.1⟩

/-- A parsed `datetime` as produced by
`datetime.strptime(...).replace(tzinfo=timezone.utc)` in `_scrape_page`
(`src/scraper.py` lines 173, 179): the timezone is UTC by construction, and
the time of day is midnight because the supported format directives carry
no time fields. -/
structure UTCDate where
  year : Nat
  month : Nat
  day : Nat
  deriving DecidableEq, Repr

/-- Accumulator for `strptime`, with CPython's defaults (year 1900,
month 1, day 1). -/
structure TimeParts where
  year : Nat := 1900
  month : Nat := 1
  day : Nat := 1
  deriving DecidableEq, Repr

/-- Numeric value of an ASCII digit. -/
def digitVal (c : Char) : Nat := c.toNat - '0'.toNat

/-- Two-digit day alternatives of CPython's `%d` regex
`3[0-1]|[1-2]\d|0[1-9]`, in regex alternation order. -/
def dayTwo : List Char → Option (Nat × List Char)
  | c1 :: c2 :: r =>
    if c1 = '3' ∧ ('0' ≤ c2 ∧ c2 ≤ '1') then some (30 + digitVal c2, r)
    else if ('1' ≤ c1 ∧ c1 ≤ '2') ∧ c2.isDigit then
      some (10 * digitVal c1 + digitVal c2, r)
    else if c1 = '0' ∧ ('1' ≤ c2 ∧ c2 ≤ '9') then some (digitVal c2, r)
    else none
  | _ => none

/-- One-digit alternative `[1-9]` of `%d` (also of `%m`). -/
def dayOne : List Char → Option (Nat × List Char)
  | c :: r => if '1' ≤ c ∧ c ≤ '9' then some (digitVal c, r) else none
  | _ => none

/-- Space-padded alternative ` [1-9]` of `%d`. -/
def daySpace : List Char → Option (Nat × List Char)
  | c1 :: c2 :: r =>
    if c1 = ' ' ∧ ('1' ≤ c2 ∧ c2 ≤ '9') then some (digitVal c2, r) else none
  | _ => none

/-- Two-digit month alternatives of CPython's `%m` regex `1[0-2]|0[1-9]`. -/
def monthTwo : List Char → Option (Nat × List Char)
  | c1 :: c2 :: r =>
    if c1 = '1' ∧ ('0' ≤ c2 ∧ c2 ≤ '2') then some (10 + digitVal c2, r)
    else if c1 = '0' ∧ ('1' ≤ c2 ∧ c2 ≤ '9') then some (digitVal c2, r)
    else none
  | _ => none

/-- Four-digit year of CPython's `%Y` regex `\d\d\d\d`. -/
def yearFour : List Char → Option (Nat × List Char)
  | a :: b :: c :: d :: r =>
    if a.isDigit ∧ b.isDigit ∧ c.isDigit ∧ d.isDigit then
      some (1000 * digitVal a + 100 * digitVal b + 10 * digitVal c + digitVal d, r)
    else none
  | _ => none

/-- Backtracking matcher for `datetime.strptime`'s generated regex,
restricted to the directives `%d`, `%m`, `%Y`, `%%` and exact literal
characters (the defaults of this program use only `%d-%m-%Y`).  Alternation
order and backtracking follow the regex; the whole input must be consumed
("unconverted data remains" otherwise).  Other directives, and CPython's
case-insensitive/whitespace-collapsing literal matching and non-ASCII
digits, are outside this model. -/
def stpRun : List Char → List Char → TimeParts → Option TimeParts
  | [], s, acc => if s.isEmpty then some acc else none
  | '%' :: 'd' :: f, s, acc =>
    (dayTwo s >>= fun p => stpRun f p.2 {acc with day := p.1}) <|>
    (dayOne s >>= fun p => stpRun f p.2 {acc with day := p.1}) <|>
    (daySpace s >>= fun p => stpRun f p.2 {acc with day := p.1})
  | '%' :: 'm' :: f, s, acc =>
    (monthTwo s >>= fun p => stpRun f p.2 {acc with month := p.1}) <|>
    (dayOne s >>= fun p => stpRun f p.2 {acc with month := p.1})
  | '%' :: 'Y' :: f, s, acc =>
    yearFour s >>= fun p => stpRun f p.2 {acc with year := p.1}
  | '%' :: '%' :: f, s, acc =>
    match s with
    | '%' :: s' => stpRun f s' acc
    | _ => none
  | '%' :: _ :: _, _, _ => none
  | ['%'], _, _ => none
  | c :: f, s, acc =>
    match s with
    | c' :: s' => if c' = c then stpRun f s' acc else none
    | [] => none

/-- Days in a month, as validated by the `datetime` constructor. -/
def daysInMonth (y m : Nat) : Nat :=
  if m = 2 then (if y % 4 = 0 ∧ (y % 100 ≠ 0 ∨ y % 400 = 0) then 29 else 28)
  else if m = 4 ∨ m = 6 ∨ m = 9 ∨ m = 11 then 30 else 31

/-- `datetime.strptime(s, fmt)` followed by `.replace(tzinfo=timezone.utc)`:
regex-match the format, then validate the calendar date as the `datetime`
constructor does (raising, i.e. `none`, for day-out-of-range etc.). -/
def strptime (s fmt : String) : Option UTCDate :=
  match stpRun fmt.data s.data {} with
  | none => none
  | some tp =>
    if 1 ≤ tp.year ∧ tp.year ≤ 9999 ∧ 1 ≤ tp.month ∧ tp.month ≤ 12 ∧
       1 ≤ tp.day ∧ tp.day ≤ daysInMonth tp.year tp.month
    then some {year := tp.year, month := tp.month, day := tp.day}
    else none

/-- Separator class (dash, slash or dot) of the fallback date pattern. -/
def isDateSep (c : Char) : Bool := c = '-' || c = '/' || c = '.'

/-- Take exactly `n` ASCII digit characters. -/
def takeDigits (n : Nat) (s : List Char) : Option (List Char × List Char) :=
  let pre := s.take n
  if pre.length = n ∧ pre.all Char.isDigit then some (pre, s.drop n) else none

/-- Match one separator character. -/
def sepAt : List Char → Option (Char × List Char)
  | c :: r => if isDateSep c then some (c, r) else none
  | [] => none

/-- Match n1 digits, a separator, n2 digits, a separator, ny digits at the
start of `s`, returning the matched characters. -/
def dateTailAt (s : List Char) (n1 n2 ny : Nat) : Option (List Char) :=
  takeDigits n1 s >>= fun p1 =>
  sepAt p1.2 >>= fun q1 =>
  takeDigits n2 q1.2 >>= fun p2 =>
  sepAt p2.2 >>= fun q2 =>
  takeDigits ny q2.2 >>= fun p3 =>
  some (p1.1 ++ q1.1 :: p2.1 ++ q2.1 :: p3.1)

/-- Greedy backtracking order of the quantifiers `\d{1,2}`, `\d{1,2}`,
`\d{2,4}`. -/
def dateCombos : List (Nat × Nat × Nat) :=
  [(2,2,4),(2,2,3),(2,2,2),(2,1,4),(2,1,3),(2,1,2),
   (1,2,4),(1,2,3),(1,2,2),(1,1,4),(1,1,3),(1,1,2)]

/-- First match of the pattern anchored at the start of `s`. -/
def dateMatchAt (s : List Char) : Option (List Char) :=
  dateCombos.findSome? fun t => dateTailAt s t.1 t.2.1 t.2.2

/-- Leftmost match position, scanning left to right. -/
def dateSearchAux : List Char → Option (List Char)
  | [] => none
  | c :: r =>
    match dateMatchAt (c :: r) with
    | some m => some m
    | none => dateSearchAux r

/-- The `re.search` of `src/scraper.py` line 176: one or two digits, a
separator, one or two digits, a separator, two to four digits (`.group()`
of the leftmost match, with the regex's greedy backtracking semantics,
ASCII digits). -/
def dateSearch (s : String) : Option String :=
  (dateSearchAux s.data).map List.asString

/-- Date resolution of `_scrape_page` (`src/scraper.py` lines 170-181): try
`strptime` on the stripped text; on failure search the text for the generic
numeric date pattern and retry the same format on the matched substring; on
further failure leave the date unset. -/
def parseDateField (dateText : String) (fmt : String) : Option UTCDate :=
  match strptime dateText fmt with
  | some d => some d
  | none =>
    match dateSearch dateText with
    | some sub => strptime sub fmt
    | none => none

/-- Selector configuration, the dict built by `create_feed`
(`src/scraper.py` lines 265-273): the three required selectors and the date
format always carry their request-default values; the optional selectors
may be absent (`None`). -/
structure ScrapeConfig where
  item_selector : String
  title_selector : String
  link_selector : String
  description_selector : Option String
  image_selector : Option String
  date_selector : Option String
  date_format : String
  deriving DecidableEq, Repr

/-- The item dict accumulated per element in `_scrape_page`: each key is
set only when its selector matched (`image` stores the raw
`get_attribute("src")` result, which may itself be `None`). -/
structure ScrapedItem where
  title : Option String := none
  link : Option String := none
  description : Option String := none
  image : Option (Option String) := none
  date : Option UTCDate := none
  deriving DecidableEq, Repr

/-- Result of `element.query_selector(sel)` together with the subsequent
reads on the handle: the matched element's `inner_text()` and attributes,
`notFound` for a `None` result, or `raises` when the evaluation raises (the
per-element `except` in `_scrape_page` catches any such error). -/
inductive QueryResult where
  | found (innerText : String) (attrs : List (String × String))
  | notFound
  | raises

/-- A rendered DOM element: what each selector query returns on it. -/
structure Element where
  query : String → QueryResult

/-- Python `str.strip()` (ASCII whitespace). -/
def pyStrip (s : String) : String :=
  (((s.data.dropWhile Char.isWhitespace).reverse.dropWhile
    Char.isWhitespace).reverse).asString

/-- Python truthiness of `item.get(key)` for a string-valued key: the key
is present and the string is non-empty. -/
def pyTruthyStr : Option String → Bool
  | none => false
  | some s => !s.data.isEmpty

/-- Query a selector and read `inner_text()` of the match, if any. -/
def queryText (el : Element) (sel : String) : Except Unit (Option String) :=
  match el.query sel with
  | QueryResult.raises => Except.error ()
  | QueryResult.notFound => Except.ok none
  | QueryResult.found txt _ => Except.ok (some txt)

/-- Query a selector and read `get_attribute name` of the match, if any. -/
def queryAttr (el : Element) (sel : String) (name : String) :
    Except Unit (Option (Option String)) :=
  match el.query sel with
  | QueryResult.raises => Except.error ()
  | QueryResult.notFound => Except.ok none
  | QueryResult.found _ attrs => Except.ok (some (attrs.lookup name))

/-- The per-element body of `_scrape_page`'s loop (`src/scraper.py` lines
136-184): build the item dict field by field in source order; any raising
selector evaluation aborts the element (`Except.error`, caught by the
loop).  `urljoin` is `urllib.parse.urljoin`, passed as a parameter. -/
def scrapeElement (urljoin : String → String → String) (url : String)
    (config : ScrapeConfig) (el : Element) : Except Unit ScrapedItem := do
  let titleTxt ← queryText el config.title_selector
  let title := titleTxt.map pyStrip
  let linkAttr ← queryAttr el config.link_selector "href"
  let link : Option String :=
    match linkAttr with
    | some (some href) =>
      if href.data.isEmpty then none else some (urljoin url href)
    | _ => none
  let description : Option String ←
    match config.description_selector with
    | some sel =>
      if sel.data.isEmpty then pure none
      else (queryText el sel).map (fun t => t.map pyStrip)
    | none => pure none
  let image : Option (Option String) ←
    match config.image_selector with
    | some sel =>
      if sel.data.isEmpty then pure none
      else queryAttr el sel "src"
    | none => pure none
  let dateVal : Option UTCDate ←
    match config.date_selector with
    | some sel =>
      if sel.data.isEmpty then pure none
      else
        (queryText el sel).map fun t =>
          match t with
          | some txt => parseDateField (pyStrip txt) config.date_format
          | none => none
    | none => pure none
  pure {title := title, link := link, description := description,
        image := image, date := dateVal}

/-- The append condition of `_scrape_page` (`src/scraper.py` line 183):
`item.get("title") and item.get("link")`. -/
def keepItem (it : ScrapedItem) : Bool :=
  pyTruthyStr it.title && pyTruthyStr it.link

/-- `_scrape_page` (`src/scraper.py` lines 119-196) after a successful
render: evaluate the item selector's matches (`elements`), process only the
first 20, skip any element whose processing raises, and append an item only
when both title and link are truthy. -/
def _scrape_page (urljoin : String → String → String) (url : String)
    (config : ScrapeConfig) (elements : List Element) : List ScrapedItem :=
  (elements.take 20).filterMap fun el =>
    match scrapeElement urljoin url config el with
    | Except.error _ => none
    | Except.ok item => if keepItem item then some item else none

example : strptime "15-03-2024" "%d-%m-%Y" =
    some {year := 2024, month := 3, day := 15} := by decide
example : strptime " 5-3-2024" "%d-%m-%Y" =
    some {year := 2024, month := 3, day := 5} := by decide
example : strptime "15-3-24" "%d-%m-%Y" = none := by decide
example : strptime "015-03-2024" "%d-%m-%Y" = none := by decide
example : strptime "15-03-20245" "%d-%m-%Y" = none := by decide
example : strptime "31-04-2024" "%d-%m-%Y" = none := by decide
example : strptime "29-02-2024" "%d-%m-%Y" =
    some {year := 2024, month := 2, day := 29} := by decide
example : strptime "29-02-2023" "%d-%m-%Y" = none := by decide
example : dateSearch "123-4-56789" = some "23-4-5678" := by decide
example : dateSearch "posted 1.2.345 ok" = some "1.2.345" := by decide
example : dateSearch "a15-03-2024b" = some "15-03-2024" := by decide
example : dateSearch "1-2-3" = none := by decide
example : dateSearch "not a date" = none := by decide

/-- Truthiness of a string-valued dict entry unfolds to presence plus
non-emptiness. -/
theorem pyTruthyStr_eq_true {o : Option String} (h : pyTruthyStr o = true) :
    ∃ s, o = some s ∧ s ≠ "" := by
  cases o with
  | none => simp [pyTruthyStr] at h
  | some s =>
    refine ⟨s, rfl, ?_⟩
    intro hs
    subst hs
    simp [pyTruthyStr] at h

/-- Claim C2: for every rendered page and configuration, `_scrape_page`
returns at most 20 items, and every returned item has a non-empty title
and a non-empty link. -/
theorem C2_items_bounded_and_nonempty (urljoin : String → String → String)
    (url : String) (config : ScrapeConfig) (elements : List Element) :
    (_scrape_page urljoin url config elements).length ≤ 20 ∧
    ∀ it ∈ _scrape_page urljoin url config elements,
      (∃ t, it.title = some t ∧ t ≠ "") ∧ (∃ l, it.link = some l ∧ l ≠ "") := by
  constructor
  · calc (_scrape_page urljoin url config elements).length
        ≤ (elements.take 20).length := List.length_filterMap_le _ _
      _ ≤ 20 := by simp
  · intro it hit
    rw [_scrape_page, List.mem_filterMap] at hit
    obtain ⟨el, _, hmatch⟩ := hit
    rcases hse : scrapeElement urljoin url config el with e | item <;>
      rw [hse] at hmatch
    · simp at hmatch
    · by_cases hk : keepItem item
      · simp only [hk, if_true, Option.some.injEq] at hmatch
        subst hmatch
        have hk' := hk
        rw [keepItem, Bool.and_eq_true] at hk'
        exact ⟨pyTruthyStr_eq_true hk'.1, pyTruthyStr_eq_true hk'.2⟩
      · simp [hk] at hmatch

/-- Concrete stand-in for `urllib.parse.urljoin` in witnesses: plain
concatenation (any function is admissible, the claims hold for all). -/
def cUrljoin : String → String → String := fun base href => base ++ href

/-- The default configuration built by `create_feed` with no optional
selectors supplied. -/
def cConfigDefault : ScrapeConfig :=
  {item_selector := "article", title_selector := "h2, h3, h4",
   link_selector := "a", description_selector := none, image_selector := none,
   date_selector := none, date_format := "%d-%m-%Y"}

/-- A well-formed item element: a title heading and a link with an `href`. -/
def cGoodElem (i : Nat) : Element :=
  {query := fun sel =>
    if sel = "h2, h3, h4" then QueryResult.found ("Title " ++ Nat.repr i) []
    else if sel = "a" then QueryResult.found "" [("href", "/post/" ++ Nat.repr i)]
    else QueryResult.notFound}

/-- An element on which every selector evaluation raises. -/
def cBadElem : Element := {query := fun _ => QueryResult.raises}

/-- A page with 25 matching item elements whose 5th and 12th (1-based)
raise on selector evaluation. -/
def cElems25 : List Element :=
  (List.range 25).map fun i =>
    if i = 4 ∨ i = 11 then cBadElem else cGoodElem (i + 1)

/-- The item extracted from `cGoodElem 1`. -/
def cItem1 : ScrapedItem :=
  {title := some "Title 1", link := some "https://example.com/post/1"}

theorem C2_items_bounded_and_nonempty_witness :
    (_scrape_page cUrljoin "https://example.com" cConfigDefault
      [cGoodElem 1]).length ≤ 20 ∧
    (∃ t, cItem1.title = some t ∧ t ≠ "") ∧
    (∃ l, cItem1.link = some l ∧ l ≠ "") :=
  ⟨(C2_items_bounded_and_nonempty cUrljoin "https://example.com"
      cConfigDefault [cGoodElem 1]).1,
   (C2_items_bounded_and_nonempty cUrljoin "https://example.com"
      cConfigDefault [cGoodElem 1]).2 cItem1 (by decide)⟩

/-- Claim C5: on a page of 25 matching elements where the 5th and 12th
raise on selector evaluation and the rest yield non-empty title and link,
`_scrape_page` returns exactly 18 items: only the first 20 matches are
processed and the two failing ones are skipped without aborting the loop
(the titles returned are those of elements 1-20 minus 5 and 12, in
order). -/
theorem C5_partial_failure_isolation :
    cElems25.length = 25 ∧
    (_scrape_page cUrljoin "https://example.com" cConfigDefault
      cElems25).length = 18 ∧
    (_scrape_page cUrljoin "https://example.com" cConfigDefault cElems25).map
        ScrapedItem.title =
      ((List.range 20).filterMap fun i =>
        if i = 4 ∨ i = 11 then none
        else some (some ("Title " ++ Nat.repr (i + 1)))) := by
  refine ⟨by decide, by decide, by decide⟩

/-- Configuration with a date selector and the default date format. -/
def cConfigDate : ScrapeConfig :=
  {item_selector := "article", title_selector := "h2, h3, h4",
   link_selector := "a", description_selector := none, image_selector := none,
   date_selector := some ".date", date_format := "%d-%m-%Y"}

/-- An element whose date text is "15-03-2024". -/
def cElemGoodDate : Element :=
  {query := fun sel =>
    if sel = "h2, h3, h4" then QueryResult.found "Hello" []
    else if sel = "a" then QueryResult.found "" [("href", "/x")]
    else if sel = ".date" then QueryResult.found "15-03-2024" []
    else QueryResult.notFound}

/-- An element whose date text is "not a date". -/
def cElemBadDate : Element :=
  {query := fun sel =>
    if sel = "h2, h3, h4" then QueryResult.found "Hello" []
    else if sel = "a" then QueryResult.found "" [("href", "/x")]
    else if sel = ".date" then QueryResult.found "not a date" []
    else QueryResult.notFound}

/-- Claim C8: date text "15-03-2024" under format "%d-%m-%Y" parses to
day 15, month 3, year 2024 (UTC by construction of `UTCDate`); date text
"not a date" leaves the date field unset, and the item is still retained
when its title and link are non-empty. -/
theorem C8_date_parse_and_retention :
    parseDateField "15-03-2024" "%d-%m-%Y" =
      some {year := 2024, month := 3, day := 15} ∧
    parseDateField "not a date" "%d-%m-%Y" = none ∧
    _scrape_page cUrljoin "https://example.com" cConfigDate
        [cElemGoodDate, cElemBadDate] =
      [{title := some "Hello", link := some "https://example.com/x",
        description := none, image := none,
        date := some {year := 2024, month := 3, day := 15}},
       {title := some "Hello", link := some "https://example.com/x",
        description := none, image := none, date := none}] := by
  refine ⟨by decide, by decide, by decide⟩

/-- Lowercase hex digit (0-15). -/
def hexDigitChar (n : Nat) : Char :=
  Char.ofNat (if n < 10 then 48 + n else 87 + n)

/-- Four lowercase hex digits of a code unit below 0x10000, as produced by
CPython's `json` `ensure_ascii` escaping. -/
def hexQuad (n : Nat) : List Char :=
  [hexDigitChar (n / 4096 % 16), hexDigitChar (n / 256 % 16),
   hexDigitChar (n / 16 % 16), hexDigitChar (n % 16)]

/-- CPython `json.dumps` per-character escaping with the default
`ensure_ascii=True`: backslash-escapes for quote, backslash and the five
short control escapes, `\uXXXX` for other control and non-ASCII BMP
characters, a surrogate pair of `\uXXXX` escapes for astral characters,
and printable ASCII unchanged. -/
def jsonEscChar (c : Char) : List Char :=
  if c = '"' then ['\\', '"']
  else if c = '\\' then ['\\', '\\']
  else if c = '\x08' then ['\\', 'b']
  else if c = '\x0c' then ['\\', 'f']
  else if c = '\n' then ['\\', 'n']
  else if c = '\r' then ['\\', 'r']
  else if c = '\t' then ['\\', 't']
  else if 32 ≤ c.toNat ∧ c.toNat ≤ 126 then [c]
  else if c.toNat < 65536 then '\\' :: 'u' :: hexQuad c.toNat
  else ('\\' :: 'u' :: hexQuad (55296 + (c.toNat - 65536) / 1024)) ++
       ('\\' :: 'u' :: hexQuad (56320 + (c.toNat - 65536) % 1024))

/-- Escape every character of a string body. -/
def jsonEsc (s : List Char) : List Char := (s.map jsonEscChar).flatten

/-- A JSON string literal: quote, escaped body, quote. -/
def jsonStr (s : String) : List Char := '"' :: (jsonEsc s.data ++ ['"'])

/-- A JSON value that is a string or `null` (for the `None` selectors). -/
def jsonOpt : Option String → List Char
  | none => ['n', 'u', 'l', 'l']
  | some s => jsonStr s

/-- Everything after the opening brace of `json.dumps(config)`:
insertion-ordered keys, default separators, right-nested for the
structural proofs. -/
def dumpsTail (c : ScrapeConfig) : List Char :=
  "\"item_selector\": ".data ++ (jsonStr c.item_selector ++
  (", \"title_selector\": ".data ++ (jsonStr c.title_selector ++
  (", \"link_selector\": ".data ++ (jsonStr c.link_selector ++
  (", \"description_selector\": ".data ++ (jsonOpt c.description_selector ++
  (", \"image_selector\": ".data ++ (jsonOpt c.image_selector ++
  (", \"date_selector\": ".data ++ (jsonOpt c.date_selector ++
  (", \"date_format\": ".data ++ (jsonStr c.date_format ++
  ['\x7d'])))))))))))))

/-- `json.dumps(config)` for the seven-key config dict of `create_feed`
(`src/scraper.py` line 276). -/
def dumpsConfig (c : ScrapeConfig) : List Char := '\x7b' :: dumpsTail c

/-- The string hashed for the cache key: `f"{url}{json.dumps(config)}"`. -/
def cacheKeyString (url : String) (config : ScrapeConfig) : List Char :=
  url.data ++ dumpsConfig config

/-- UTF-8 encoding of one character (`str.encode()`). -/
def utf8Char (c : Char) : List Nat :=
  let n := c.toNat
  if n < 128 then [n]
  else if n < 2048 then [192 + n / 64, 128 + n % 64]
  else if n < 65536 then [224 + n / 4096, 128 + (n / 64) % 64, 128 + n % 64]
  else [240 + n / 262144, 128 + (n / 4096) % 64, 128 + (n / 64) % 64,
        128 + n % 64]

/-- UTF-8 encoding of a string as a byte list. -/
def utf8Bytes (s : List Char) : List Nat := (s.map utf8Char).flatten

/-- Word size of the MD5 state. -/
def M32 : Nat := 4294967296

/-- The 64 MD5 round constants, `floor(abs(sin(i+1)) * 2^32)` (RFC 1321). -/
def md5K : List Nat :=
  [0xd76aa478, 0xe8c7b756, 0x242070db, 0xc1bdceee,
   0xf57c0faf, 0x4787c62a, 0xa8304613, 0xfd469501,
   0x698098d8, 0x8b44f7af, 0xffff5bb1, 0x895cd7be,
   0x6b901122, 0xfd987193, 0xa679438e, 0x49b40821,
   0xf61e2562, 0xc040b340, 0x265e5a51, 0xe9b6c7aa,
   0xd62f105d, 0x02441453, 0xd8a1e681, 0xe7d3fbc8,
   0x21e1cde6, 0xc33707d6, 0xf4d50d87, 0x455a14ed,
   0xa9e3e905, 0xfcefa3f8, 0x676f02d9, 0x8d2a4c8a,
   0xfffa3942, 0x8771f681, 0x6d9d6122, 0xfde5380c,
   0xa4beea44, 0x4bdecfa9, 0xf6bb4b60, 0xbebfbc70,
   0x289b7ec6, 0xeaa127fa, 0xd4ef3085, 0x04881d05,
   0xd9d4d039, 0xe6db99e5, 0x1fa27cf8, 0xc4ac5665,
   0xf4292244, 0x432aff97, 0xab9423a7, 0xfc93a039,
   0x655b59c3, 0x8f0ccc92, 0xffeff47d, 0x85845dd1,
   0x6fa87e4f, 0xfe2ce6e0, 0xa3014314, 0x4e0811a1,
   0xf7537e82, 0xbd3af235, 0x2ad7d2bb, 0xeb86d391]

/-- The MD5 per-round left-rotation amounts (RFC 1321). -/
def md5S : List Nat :=
  [7,12,17,22,7,12,17,22,7,12,17,22,7,12,17,22,
   5, 9,14,20,5, 9,14,20,5, 9,14,20,5, 9,14,20,
   4,11,16,23,4,11,16,23,4,11,16,23,4,11,16,23,
   6,10,15,21,6,10,15,21,6,10,15,21,6,10,15,21]

/-- Bitwise complement on 32-bit words represented as `Nat`. -/
def lnot32 (x : Nat) : Nat := 4294967295 - x

/-- 32-bit left rotation. -/
def rotl32 (x s : Nat) : Nat := ((x <<< s) % M32) ||| (x >>> (32 - s))

/-- The MD5 nonlinear functions F, G, H, I selected by round index. -/
def md5F (i b c d : Nat) : Nat :=
  if i < 16 then (b &&& c) ||| (lnot32 b &&& d)
  else if i < 32 then (d &&& b) ||| (lnot32 d &&& c)
  else if i < 48 then b ^^^ c ^^^ d
  else c ^^^ (b ||| lnot32 d)

/-- The MD5 message-word index schedule. -/
def md5G (i : Nat) : Nat :=
  if i < 16 then i
  else if i < 32 then (5 * i + 1) % 16
  else if i < 48 then (3 * i + 5) % 16
  else (7 * i) % 16

/-- The four 32-bit MD5 state words. -/
structure MD5St where
  a : Nat
  b : Nat
  c : Nat
  d : Nat
  deriving DecidableEq, Repr

/-- One MD5 round. -/
def md5Round (w : List Nat) (st : MD5St) (i : Nat) : MD5St :=
  let f := md5F i st.b st.c st.d
  let tmp := (st.a + f + md5K.getD i 0 + w.getD (md5G i) 0) % M32
  {a := st.d, b := (st.b + rotl32 tmp (md5S.getD i 0)) % M32,
   c := st.b, d := st.c}

/-- Little-endian 32-bit words of a 64-byte block. -/
def toWordsLE : List Nat → List Nat
  | b0 :: b1 :: b2 :: b3 :: rest =>
    (b0 + 256 * b1 + 65536 * b2 + 16777216 * b3) :: toWordsLE rest
  | _ => []

/-- Process one 64-byte block. -/
def md5Chunk (st : MD5St) (chunk : List Nat) : MD5St :=
  let w := toWordsLE chunk
  let r := (List.range 64).foldl (md5Round w) st
  {a := (st.a + r.a) % M32, b := (st.b + r.b) % M32,
   c := (st.c + r.c) % M32, d := (st.d + r.d) % M32}

/-- Split into 64-byte blocks (`n` counts the blocks). -/
def chunksGo : Nat → List Nat → List (List Nat)
  | 0, _ => []
  | n + 1, l => l.take 64 :: chunksGo n (l.drop 64)

/-- Split a padded message into its 64-byte blocks. -/
def chunks64 (l : List Nat) : List (List Nat) := chunksGo (l.length / 64) l

/-- The eight little-endian length bytes of the MD5 padding. -/
def le8 (n : Nat) : List Nat :=
  (List.range 8).map fun i => (n >>> (8 * i)) % 256

/-- MD5 padding: a 0x80 byte, zeros to 56 mod 64, the bit length. -/
def md5Pad (msg : List Nat) : List Nat :=
  let len := msg.length
  let k := (120 - (len + 1) % 64) % 64
  msg ++ 128 :: List.replicate k 0 ++ le8 ((8 * len) % 18446744073709551616)

/-- The MD5 initial state. -/
def md5Init : MD5St :=
  {a := 0x67452301, b := 0xefcdab89, c := 0x98badcfe, d := 0x10325476}

/-- The final MD5 state of a message. -/
def md5State (msg : List Nat) : MD5St :=
  (chunks64 (md5Pad msg)).foldl md5Chunk md5Init

/-- Little-endian bytes of a 32-bit word. -/
def word4LE (x : Nat) : List Nat :=
  [x % 256, (x >>> 8) % 256, (x >>> 16) % 256, (x >>> 24) % 256]

/-- The 16 digest bytes. -/
def md5Digest (st : MD5St) : List Nat :=
  word4LE st.a ++ word4LE st.b ++ word4LE st.c ++ word4LE st.d

/-- Two lowercase hex digits of a byte. -/
def byteHex (b : Nat) : List Char := [hexDigitChar (b / 16), hexDigitChar (b % 16)]

/-- `hashlib.md5(msg).hexdigest()`. -/
def md5Hex (msg : List Nat) : String :=
  (((md5Digest (md5State msg)).map byteHex).flatten).asString

/-- The cache key of `create_feed` (`src/scraper.py` line 276):
`hashlib.md5(f"{url}{json.dumps(config)}".encode()).hexdigest()`. -/
def cache_key (url : String) (config : ScrapeConfig) : String :=
  md5Hex (utf8Bytes (cacheKeyString url config))

example : md5Hex [] = "d41d8cd98f00b204e9800998ecf8427e" := by decide
example : md5Hex (utf8Bytes "abc".data) =
    "900150983cd24fb0d6963f7d28e17f72" := by decide

example : (dumpsConfig
    {item_selector := "article", title_selector := "h2, h3, h4",
     link_selector := "a", description_selector := none, image_selector := none,
     date_selector := none, date_format := "%d-%m-%Y"}).asString =
    "\x7b\"item_selector\": \"article\", \"title_selector\": \"h2, h3, h4\", \"link_selector\": \"a\", \"description_selector\": null, \"image_selector\": null, \"date_selector\": null, \"date_format\": \"%d-%m-%Y\"\x7d" := by
  decide

example : cache_key "https://example.com"
    {item_selector := "article", title_selector := "h2, h3, h4",
     link_selector := "a", description_selector := none, image_selector := none,
     date_selector := none, date_format := "%d-%m-%Y"} =
    "09591c394cdddb7bd1e492450c8bc62b" := by decide

example : (jsonEsc "é\x01\"".data).asString = "\\u00e9\\u0001\\\"" := by decide

/-- A cache entry: the rendered RSS bytes and the creation timestamp
(`datetime.now().timestamp()`, a float modeled as a rational). -/
structure CacheEntry where
  data : String
  time : ℚ
  deriving DecidableEq, Repr

/-- The module-level `cache` dict, as an association list in which a new
binding for a key shadows (overwrites) any older one; `List.lookup` finds
the newest binding, matching dict lookup. -/
def CacheMap : Type := List (String × CacheEntry)

/-- `CACHE_DURATION = 600` seconds (`src/scraper.py` line 26). -/
def CACHE_DURATION : ℚ := 600

/-- The request query parameters of `GET /feed`: `request.args.get` yields
`none` for an absent parameter. -/
structure FeedArgs where
  url : Option String
  item : Option String
  title : Option String
  link : Option String
  desc : Option String
  img : Option String
  date : Option String
  datefmt : Option String
  deriving DecidableEq, Repr

/-- The config dict built by `create_feed` (`src/scraper.py` lines
265-273), with `request.args.get` defaults. -/
def buildConfig (args : FeedArgs) : ScrapeConfig :=
  {item_selector := args.item.getD "article",
   title_selector := args.title.getD "h2, h3, h4",
   link_selector := args.link.getD "a",
   description_selector := args.desc,
   image_selector := args.img,
   date_selector := args.date,
   date_format := args.datefmt.getD "%d-%m-%Y"}

/-- A Flask response: body, status code, and mimetype (`none` for the
default of the `(body, status)` tuple returns). -/
structure HttpResponse where
  body : String
  status : Nat
  mimetype : Option String
  deriving DecidableEq, Repr

/-- The RSS mimetype used by `create_feed`. -/
def rssMime : String := "application/rss+xml"

/-- The scrape-and-respond part of `create_feed` (`src/scraper.py` lines
283-307), reached on a cache miss: dispatch on the scrape outcome
(`except TimeoutError` / `except PlaywrightError` with its target-closed
message split / `except Exception`), 404 on an empty item list, otherwise
build the RSS (`rssOf` is `generate_rss`, an external collaborator), store
it in the cache and respond 200. -/
def feedScrapeBranch (rssOf : List ScrapedItem → String → String → String)
    (now : ℚ) (cache : CacheMap) (url : String) (key : String)
    (outcome : Except PyErr (List ScrapedItem)) : HttpResponse × CacheMap :=
  match outcome with
  | Except.error e =>
    match e.cls with
    | PyErrClass.timeoutError =>
      ({body := "Scraping timed out. The target page took too long to load.",
        status := 504, mimetype := none}, cache)
    | PyErrClass.playwrightError =>
      if containsSub "Target".data e.msg.data &&
         containsSub "closed".data e.msg.data then
        ({body := "Browser error (target closed). Please retry.",
          status := 503, mimetype := none}, cache)
      else
        ({body := "Scraping failed due to a browser error. Please retry.",
          status := 503, mimetype := none}, cache)
    | PyErrClass.otherError =>
      ({body := "Internal scraping error. Please retry.",
        status := 500, mimetype := none}, cache)
  | Except.ok items =>
    if items.isEmpty then
      ({body := "No items found. Check your CSS selectors.",
        status := 404, mimetype := none}, cache)
    else
      let rss := rssOf items ("Feed: " ++ url) url
      ({body := rss, status := 200, mimetype := some rssMime},
       (key, {data := rss, time := now}) :: cache)

/-- `create_feed` (`src/scraper.py` lines 243-307): 400 when the `url`
parameter is absent or empty (`if not url`); otherwise compute the cache
key, serve a cached entry younger than `CACHE_DURATION`, and fall through
to the scrape branch otherwise.  `outcome` is the result that the
`scrape_js_website(url, config)` call would produce for this request (it is
only consulted on the scrape path, as in the source); the request's two
`datetime.now().timestamp()` calls are modeled as the single instant
`now`. -/
def create_feed (rssOf : List ScrapedItem → String → String → String)
    (now : ℚ) (cache : CacheMap) (args : FeedArgs)
    (outcome : Except PyErr (List ScrapedItem)) : HttpResponse × CacheMap :=
  match args.url with
  | none =>
    ({body := "Missing 'url' parameter", status := 400, mimetype := none}, cache)
  | some url =>
    if url.data.isEmpty then
      ({body := "Missing 'url' parameter", status := 400, mimetype := none}, cache)
    else
      let key := cache_key url (buildConfig args)
      match List.lookup key cache with
      | some entry =>
        if now - entry.time < CACHE_DURATION then
          ({body := entry.data, status := 200, mimetype := some rssMime}, cache)
        else feedScrapeBranch rssOf now cache url key outcome
      | none => feedScrapeBranch rssOf now cache url key outcome

/-- A non-empty string has non-empty character data. -/
theorem String_ne_empty_data {s : String} (h : s ≠ "") :
    s.data.isEmpty = false := by
  cases s with
  | mk l =>
    cases l with
    | nil => exact absurd rfl h
    | cons c t => rfl

/-- On a fresh-entry-free cache, `create_feed` takes the scrape branch. -/
theorem create_feed_miss (rssOf : List ScrapedItem → String → String → String)
    (now : ℚ) (cache : CacheMap) (args : FeedArgs)
    (outcome : Except PyErr (List ScrapedItem)) (url : String)
    (hu : args.url = some url) (hne : url ≠ "")
    (hmiss : ∀ e, List.lookup (cache_key url (buildConfig args)) cache = some e →
      ¬(now - e.time < CACHE_DURATION)) :
    create_feed rssOf now cache args outcome =
      feedScrapeBranch rssOf now cache url
        (cache_key url (buildConfig args)) outcome := by
  simp only [create_feed, hu, String_ne_empty_data hne, Bool.false_eq_true,
    if_false]
  rcases hl : List.lookup (cache_key url (buildConfig args)) cache with _ | e
  · rfl
  · simp only [if_neg (hmiss e hl)]

/-- Claim C9: status codes of `GET /feed`.  400 when `url` is absent; on
the scrape path (no fresh cache entry): 200 with the RSS mimetype and the
generated body when scraping yields at least one item, 404 on zero items,
504 on a `TimeoutError`, 503 on a `PlaywrightError` (both message
branches), 500 on any other exception. -/
theorem C9_feed_status_codes (rssOf : List ScrapedItem → String → String → String)
    (now : ℚ) (cache : CacheMap) (args : FeedArgs)
    (outcome : Except PyErr (List ScrapedItem)) :
    (args.url = none →
      (create_feed rssOf now cache args outcome).1.status = 400) ∧
    (∀ url, args.url = some url → url ≠ "" →
      (∀ e, List.lookup (cache_key url (buildConfig args)) cache = some e →
        ¬(now - e.time < CACHE_DURATION)) →
      ((∀ items, outcome = Except.ok items → items ≠ [] →
          (create_feed rssOf now cache args outcome).1.status = 200 ∧
          (create_feed rssOf now cache args outcome).1.mimetype = some rssMime ∧
          (create_feed rssOf now cache args outcome).1.body =
            rssOf items ("Feed: " ++ url) url) ∧
       (outcome = Except.ok [] →
          (create_feed rssOf now cache args outcome).1.status = 404) ∧
       (∀ e, outcome = Except.error e → e.cls = PyErrClass.timeoutError →
          (create_feed rssOf now cache args outcome).1.status = 504) ∧
       (∀ e, outcome = Except.error e → e.cls = PyErrClass.playwrightError →
          (create_feed rssOf now cache args outcome).1.status = 503) ∧
       (∀ e, outcome = Except.error e → e.cls = PyErrClass.otherError →
          (create_feed rssOf now cache args outcome).1.status = 500))) := by
  constructor
  · intro h
    simp [create_feed, h]
  · intro url hu hne hmiss
    rw [create_feed_miss rssOf now cache args outcome url hu hne hmiss]
    refine ⟨?_, ?_, ?_, ?_, ?_⟩
    · intro items ho hne2
      subst ho
      rcases items with _ | ⟨it, rest⟩
      · exact absurd rfl hne2
      · exact ⟨rfl, rfl, rfl⟩
    · intro ho
      subst ho
      rfl
    · intro e ho hcls
      subst ho
      simp [feedScrapeBranch, hcls]
    · intro e ho hcls
      subst ho
      simp only [feedScrapeBranch, hcls]
      rcases h : (containsSub "Target".data e.msg.data &&
          containsSub "closed".data e.msg.data) <;> simp [h]
    · intro e ho hcls
      subst ho
      simp [feedScrapeBranch, hcls]

/-- Error of class `Exception` only. -/
def cErrOther : PyErr := {cls := PyErrClass.otherError, msg := "boom"}

/-- Request args with no `url` parameter. -/
def cArgsNoUrl : FeedArgs :=
  {url := none, item := none, title := none, link := none, desc := none,
   img := none, date := none, datefmt := none}

/-- Request args with only the `url` parameter. -/
def cArgsFeed : FeedArgs :=
  {url := some "https://example.com", item := none, title := none,
   link := none, desc := none, img := none, date := none, datefmt := none}

/-- Constant RSS serializer stand-in for `generate_rss`. -/
def cRssConst : List ScrapedItem → String → String → String :=
  fun _ _ _ => "rss-bytes"

theorem C9_feed_status_codes_witness :
    (create_feed cRssConst 0 [] cArgsNoUrl (Except.ok [])).1.status = 400 ∧
    (create_feed cRssConst 0 [] cArgsFeed (Except.ok [cItem1])).1.status = 200 ∧
    (create_feed cRssConst 0 [] cArgsFeed (Except.ok [cItem1])).1.mimetype =
      some rssMime ∧
    (create_feed cRssConst 0 [] cArgsFeed (Except.ok [])).1.status = 404 ∧
    (create_feed cRssConst 0 [] cArgsFeed
      (Except.error cErrTimeout)).1.status = 504 ∧
    (create_feed cRssConst 0 [] cArgsFeed
      (Except.error cErrCrash)).1.status = 503 ∧
    (create_feed cRssConst 0 [] cArgsFeed
      (Except.error cErrOther)).1.status = 500 :=
  ⟨(C9_feed_status_codes cRssConst 0 [] cArgsNoUrl (Except.ok [])).1 rfl,
   ((C9_feed_status_codes cRssConst 0 [] cArgsFeed (Except.ok [cItem1])).2
      "https://example.com" rfl (by decide)
      (fun e he => Option.noConfusion he)).1 [cItem1] rfl
      (by decide) |>.1,
   ((C9_feed_status_codes cRssConst 0 [] cArgsFeed (Except.ok [cItem1])).2
      "https://example.com" rfl (by decide)
      (fun e he => Option.noConfusion he)).1 [cItem1] rfl
      (by decide) |>.2.1,
   ((C9_feed_status_codes cRssConst 0 [] cArgsFeed (Except.ok [])).2
      "https://example.com" rfl (by decide)
      (fun e he => Option.noConfusion he)).2.1 rfl,
   ((C9_feed_status_codes cRssConst 0 [] cArgsFeed
      (Except.error cErrTimeout)).2 "https://example.com" rfl (by decide)
      (fun e he => Option.noConfusion he)).2.2.1 cErrTimeout rfl rfl,
   ((C9_feed_status_codes cRssConst 0 [] cArgsFeed
      (Except.error cErrCrash)).2 "https://example.com" rfl (by decide)
      (fun e he => Option.noConfusion he)).2.2.2.1 cErrCrash rfl rfl,
   ((C9_feed_status_codes cRssConst 0 [] cArgsFeed
      (Except.error cErrOther)).2 "https://example.com" rfl (by decide)
      (fun e he => Option.noConfusion he)).2.2.2.2 cErrOther rfl rfl⟩

/-- Claim C10: a `/feed` request either leaves the cache map unchanged
(400, cache hit, any scrape error, or zero items) or, exactly when the
scrape succeeded with a non-empty item list, prepends one entry holding the
RSS bytes generated from that list; so every entry ever stored holds RSS
generated from a non-empty item list. -/
theorem C10_cache_written_only_on_success
    (rssOf : List ScrapedItem → String → String → String)
    (now : ℚ) (cache : CacheMap) (args : FeedArgs)
    (outcome : Except PyErr (List ScrapedItem)) :
    (create_feed rssOf now cache args outcome).2 = cache ∨
    (∃ url items, args.url = some url ∧ outcome = Except.ok items ∧
      items ≠ [] ∧
      (create_feed rssOf now cache args outcome).2 =
        (cache_key url (buildConfig args),
         {data := rssOf items ("Feed: " ++ url) url, time := now}) :: cache) := by
  have hbranch : ∀ url key,
      (feedScrapeBranch rssOf now cache url key outcome).2 = cache ∨
      (∃ items, outcome = Except.ok items ∧ items ≠ [] ∧
        (feedScrapeBranch rssOf now cache url key outcome).2 =
          (key, {data := rssOf items ("Feed: " ++ url) url,
                 time := now}) :: cache) := by
    intro url key
    rcases outcome with e | items
    · left
      rcases hcls : e.cls
      · simp [feedScrapeBranch, hcls]
      · simp only [feedScrapeBranch, hcls]
        rcases h : (containsSub "Target".data e.msg.data &&
          containsSub "closed".data e.msg.data) <;> simp [h]
      · simp [feedScrapeBranch, hcls]
    · rcases items with _ | ⟨it, rest⟩
      · left
        rfl
      · right
        exact ⟨it :: rest, rfl, by simp, rfl⟩
  rcases hu : args.url with _ | url
  · left
    simp [create_feed, hu]
  · simp only [create_feed, hu]
    by_cases hurl : url.data.isEmpty = true
    · left
      rw [if_pos hurl]
    · rw [if_neg hurl]
      rcases hl : List.lookup (cache_key url (buildConfig args)) cache with _ | e
      · simp only [hl]
        rcases hbranch url (cache_key url (buildConfig args)) with h |
          ⟨items, h1, h2, h3⟩
        · left
          exact h
        · right
          exact ⟨url, items, rfl, h1, h2, h3⟩
      · simp only [hl]
        by_cases hf : now - e.time < CACHE_DURATION
        · left
          rw [if_pos hf]
        · rw [if_neg hf]
          rcases hbranch url (cache_key url (buildConfig args)) with h |
            ⟨items, h1, h2, h3⟩
          · left
            exact h
          · right
            exact ⟨url, items, rfl, h1, h2, h3⟩

/-- Looking up the key just stored finds the stored entry. -/
theorem lookup_cons_self (v : CacheEntry) (t : CacheMap) (k : String) :
    List.lookup k ((k, v) :: t) = some v := by
  simp [List.lookup]

/-- On a fresh cache hit, `create_feed` serves the entry and writes
nothing. -/
theorem create_feed_hit (rssOf : List ScrapedItem → String → String → String)
    (now : ℚ) (cache : CacheMap) (args : FeedArgs)
    (outcome : Except PyErr (List ScrapedItem)) (url : String) (e : CacheEntry)
    (hu : args.url = some url) (hne : url ≠ "")
    (hlook : List.lookup (cache_key url (buildConfig args)) cache = some e)
    (hfr : now - e.time < CACHE_DURATION) :
    create_feed rssOf now cache args outcome =
      ({body := e.data, status := 200, mimetype := some rssMime}, cache) := by
  simp only [create_feed, hu]
  rw [if_neg (by simp [String_ne_empty_data hne] : ¬(url.data.isEmpty = true))]
  simp only [hlook]
  exact if_pos hfr

/-- Claim C6, amended: if the first call performs a fresh successful scrape
(no fresh cache entry beforehand, at least one item), then a second call
for the same `(url, config)` within 600 seconds of the first returns a
byte-identical response body from the cache and writes nothing, whatever
its own scrape outcome would have been; and, in general, a cache entry is
served on lookup exactly while `now - created < 600`, the request falling
through to the scrape branch otherwise. -/
theorem C6_fresh_scrape_then_cached
    (rssOf : List ScrapedItem → String → String → String)
    (now1 now2 : ℚ) (cache : CacheMap) (args : FeedArgs) (url : String)
    (items : List ScrapedItem) (outcome2 : Except PyErr (List ScrapedItem))
    (hu : args.url = some url) (hne : url ≠ "")
    (hmiss : ∀ e, List.lookup (cache_key url (buildConfig args)) cache = some e →
      ¬(now1 - e.time < CACHE_DURATION))
    (hitems : items ≠ [])
    (hwin : now2 - now1 < CACHE_DURATION) :
    ((create_feed rssOf now1 cache args (Except.ok items)).1.status = 200 ∧
     (create_feed rssOf now2
        (create_feed rssOf now1 cache args (Except.ok items)).2 args
        outcome2).1 =
       (create_feed rssOf now1 cache args (Except.ok items)).1 ∧
     (create_feed rssOf now2
        (create_feed rssOf now1 cache args (Except.ok items)).2 args
        outcome2).2 =
       (create_feed rssOf now1 cache args (Except.ok items)).2) ∧
    (∀ (now' : ℚ) (cache' : CacheMap) (e : CacheEntry)
        (outcome' : Except PyErr (List ScrapedItem)),
      List.lookup (cache_key url (buildConfig args)) cache' = some e →
      ((now' - e.time < CACHE_DURATION →
        create_feed rssOf now' cache' args outcome' =
          ({body := e.data, status := 200, mimetype := some rssMime},
           cache')) ∧
       (¬(now' - e.time < CACHE_DURATION) →
        create_feed rssOf now' cache' args outcome' =
          feedScrapeBranch rssOf now' cache' url
            (cache_key url (buildConfig args)) outcome'))) := by
  have h1 : create_feed rssOf now1 cache args (Except.ok items) =
      ({body := rssOf items ("Feed: " ++ url) url, status := 200,
        mimetype := some rssMime},
       (cache_key url (buildConfig args),
        {data := rssOf items ("Feed: " ++ url) url, time := now1}) :: cache) := by
    rw [create_feed_miss rssOf now1 cache args (Except.ok items) url hu hne hmiss]
    rcases items with _ | ⟨it, rest⟩
    · exact absurd rfl hitems
    · rfl
  have h2 : create_feed rssOf now2
      ((cache_key url (buildConfig args),
        {data := rssOf items ("Feed: " ++ url) url, time := now1}) :: cache)
      args outcome2 =
      ({body := rssOf items ("Feed: " ++ url) url, status := 200,
        mimetype := some rssMime},
       (cache_key url (buildConfig args),
        {data := rssOf items ("Feed: " ++ url) url, time := now1}) :: cache) :=
    create_feed_hit rssOf now2 _ args outcome2 url _ hu hne
      (lookup_cons_self _ _ _) hwin
  refine ⟨⟨?_, ?_, ?_⟩, ?_⟩
  · rw [h1]
  · rw [h1, h2]
  · rw [h1, h2]
  · intro now' cache' e outcome' hlook
    constructor
    · intro hfr
      exact create_feed_hit rssOf now' cache' args outcome' url e hu hne hlook hfr
    · intro hnf
      refine create_feed_miss rssOf now' cache' args outcome' url hu hne ?_
      intro e' he'
      rw [hlook] at he'
      injection he' with h
      rw [h] at hnf
      exact hnf

/-- A cache entry written at time 0 with body "old". -/
def cEntryOld : CacheEntry := {data := "old", time := 0}

/-- A cache holding that entry under the fingerprint of `cArgsFeed`. -/
def cCacheOld : CacheMap :=
  [(cache_key "https://example.com" (buildConfig cArgsFeed), cEntryOld)]

/-- Counterexample to claim C6 as stated: with an entry created at time 0,
a first call at t = 599 succeeds (200, body "old", a cache hit, so no
write), a second call for the same pair comes 2 seconds later (within 600
seconds of the first, with no intervening cache write for the
fingerprint), yet it returns body "rss-bytes" ≠ "old": the entry had
crossed its 600-second expiry between the calls, so the second call
re-scraped.  The claim holds only when the 600-second window is measured
from the entry's creation (the first call writing it), not from an
arbitrary first call. -/
theorem C6_counterexample :
    (create_feed cRssConst 599 cCacheOld cArgsFeed
      (Except.ok [cItem1])).1.status = 200 ∧
    (create_feed cRssConst 599 cCacheOld cArgsFeed
      (Except.ok [cItem1])).1.body = "old" ∧
    (create_feed cRssConst 599 cCacheOld cArgsFeed
      (Except.ok [cItem1])).2 = cCacheOld ∧
    (601 : ℚ) - 599 < 600 ∧
    (create_feed cRssConst 601 cCacheOld cArgsFeed
      (Except.ok [cItem1])).1.body = "rss-bytes" ∧
    (create_feed cRssConst 601 cCacheOld cArgsFeed
      (Except.ok [cItem1])).1.body ≠
      (create_feed cRssConst 599 cCacheOld cArgsFeed
        (Except.ok [cItem1])).1.body := by
  have hlook : List.lookup
      (cache_key "https://example.com" (buildConfig cArgsFeed)) cCacheOld =
      some cEntryOld := lookup_cons_self _ _ _
  have h59 : create_feed cRssConst 599 cCacheOld cArgsFeed
      (Except.ok [cItem1]) =
      ({body := cEntryOld.data, status := 200, mimetype := some rssMime},
       cCacheOld) :=
    create_feed_hit cRssConst 599 cCacheOld cArgsFeed (Except.ok [cItem1])
      "https://example.com" cEntryOld rfl (by decide) hlook
      (by show (599 : ℚ) - 0 < 600; norm_num)
  have h61 : create_feed cRssConst 601 cCacheOld cArgsFeed
      (Except.ok [cItem1]) =
      feedScrapeBranch cRssConst 601 cCacheOld "https://example.com"
        (cache_key "https://example.com" (buildConfig cArgsFeed))
        (Except.ok [cItem1]) := by
    refine create_feed_miss cRssConst 601 cCacheOld cArgsFeed
      (Except.ok [cItem1]) "https://example.com" rfl (by decide) ?_
    intro e' he'
    rw [hlook] at he'
    injection he' with h
    rw [← h]
    show ¬((601 : ℚ) - 0 < 600)
    norm_num
  refine ⟨?_, ?_, ?_, by norm_num, ?_, ?_⟩
  · rw [h59]
  · rw [h59]
    rfl
  · rw [h59]
  · rw [h61]
    rfl
  · rw [h59, h61]
    intro hcontra
    exact absurd (congrArg String.data hcontra) (by decide)

theorem C6_fresh_scrape_then_cached_witness :
    (create_feed cRssConst 0 [] cArgsFeed (Except.ok [cItem1])).1.status = 200 ∧
    (create_feed cRssConst 300
      (create_feed cRssConst 0 [] cArgsFeed (Except.ok [cItem1])).2 cArgsFeed
      (Except.ok [])).1 =
      (create_feed cRssConst 0 [] cArgsFeed (Except.ok [cItem1])).1 ∧
    (create_feed cRssConst 300
      (create_feed cRssConst 0 [] cArgsFeed (Except.ok [cItem1])).2 cArgsFeed
      (Except.ok [])).2 =
      (create_feed cRssConst 0 [] cArgsFeed (Except.ok [cItem1])).2 :=
  ⟨(C6_fresh_scrape_then_cached cRssConst 0 300 [] cArgsFeed
      "https://example.com" [cItem1] (Except.ok []) rfl (by decide)
      (fun e he => Option.noConfusion he) (by decide)
      (by norm_num [CACHE_DURATION])).1.1,
   (C6_fresh_scrape_then_cached cRssConst 0 300 [] cArgsFeed
      "https://example.com" [cItem1] (Except.ok []) rfl (by decide)
      (fun e he => Option.noConfusion he) (by decide)
      (by norm_num [CACHE_DURATION])).1.2.1,
   (C6_fresh_scrape_then_cached cRssConst 0 300 [] cArgsFeed
      "https://example.com" [cItem1] (Except.ok []) rfl (by decide)
      (fun e he => Option.noConfusion he) (by decide)
      (by norm_num [CACHE_DURATION])).1.2.2⟩

/-- The four state words stay below 2^32. -/
def MD5Bounded (st : MD5St) : Prop :=
  st.a < M32 ∧ st.b < M32 ∧ st.c < M32 ∧ st.d < M32

/-- Chunk processing keeps the state words below 2^32. -/
theorem md5Chunk_bounded (st : MD5St) (chunk : List Nat) :
    MD5Bounded (md5Chunk st chunk) := by
  have h : 0 < M32 := by decide
  exact ⟨Nat.mod_lt _ h, Nat.mod_lt _ h, Nat.mod_lt _ h, Nat.mod_lt _ h⟩

/-- The final MD5 state has all words below 2^32. -/
theorem md5State_bounded (msg : List Nat) : MD5Bounded (md5State msg) := by
  have h : ∀ (l : List (List Nat)) (st : MD5St), MD5Bounded st →
      MD5Bounded (l.foldl md5Chunk st) := by
    intro l
    induction l with
    | nil => exact fun st h => h
    | cons ch t ih => exact fun st _ => ih _ (md5Chunk_bounded st ch)
  refine h _ md5Init ⟨?_, ?_, ?_, ?_⟩ <;> decide

/-- The final MD5 state packaged into a finite type: the digest space has
only 2^128 values. -/
def md5StateFin (msg : List Nat) : Fin M32 × Fin M32 × Fin M32 × Fin M32 :=
  ⟨⟨(md5State msg).a, (md5State_bounded msg).1⟩,
   ⟨(md5State msg).b, (md5State_bounded msg).2.1⟩,
   ⟨(md5State msg).c, (md5State_bounded msg).2.2.1⟩,
   ⟨(md5State msg).d, (md5State_bounded msg).2.2.2⟩⟩

/-- The n-th url of an infinite family of pairwise distinct urls. -/
def aUrl (n : Nat) : String := (List.replicate n 'a').asString

/-- Counterexample to claim C7 as stated (its negation): two distinct
`(url, config)` pairs whose computed cache keys are equal exist, because
the md5 digest space is finite (2^128 states) while the url space is
infinite — md5 cannot be injective, so "any two pairs differing in the url
or in any config field have different keys" is false, though no explicit
collision is known.  (The serialization fed to md5 is injective; see the
amended theorem.) -/
theorem C7_counterexample :
    ∃ u1 u2 : String, u1 ≠ u2 ∧
      cache_key u1 cConfigDefault = cache_key u2 cConfigDefault := by
  obtain ⟨n, m, hnm, heq⟩ := Finite.exists_ne_map_eq_of_infinite
    (fun n : ℕ => md5StateFin (utf8Bytes (cacheKeyString (aUrl n) cConfigDefault)))
  have hstate : md5State (utf8Bytes (cacheKeyString (aUrl n) cConfigDefault)) =
      md5State (utf8Bytes (cacheKeyString (aUrl m) cConfigDefault)) := by
    simp only [md5StateFin, Prod.ext_iff, Fin.ext_iff] at heq
    obtain ⟨ha, hb, hc, hd⟩ := heq
    calc md5State (utf8Bytes (cacheKeyString (aUrl n) cConfigDefault)) =
        ⟨(md5State (utf8Bytes (cacheKeyString (aUrl n) cConfigDefault))).a,
         (md5State (utf8Bytes (cacheKeyString (aUrl n) cConfigDefault))).b,
         (md5State (utf8Bytes (cacheKeyString (aUrl n) cConfigDefault))).c,
         (md5State (utf8Bytes (cacheKeyString (aUrl n) cConfigDefault))).d⟩ := rfl
      _ = ⟨(md5State (utf8Bytes (cacheKeyString (aUrl m) cConfigDefault))).a,
         (md5State (utf8Bytes (cacheKeyString (aUrl m) cConfigDefault))).b,
         (md5State (utf8Bytes (cacheKeyString (aUrl m) cConfigDefault))).c,
         (md5State (utf8Bytes (cacheKeyString (aUrl m) cConfigDefault))).d⟩ := by
          rw [ha, hb, hc, hd]
      _ = md5State (utf8Bytes (cacheKeyString (aUrl m) cConfigDefault)) := rfl
  refine ⟨aUrl n, aUrl m, ?_, ?_⟩
  · intro h
    apply hnm
    have := congrArg String.data h
    simp only [aUrl] at this
    have hlen := congrArg List.length this
    simpa using hlen
  · show (((md5Digest (md5State
      (utf8Bytes (cacheKeyString (aUrl n) cConfigDefault)))).map byteHex).flatten).asString =
      (((md5Digest (md5State
      (utf8Bytes (cacheKeyString (aUrl m) cConfigDefault)))).map byteHex).flatten).asString
    rw [hstate]

/-- The three-character pattern that opens every `json.dumps(config)`
serialization. -/
def pat3 : List Char := ['\x7b', '"', 'i']

/-- An infix occurrence in a concatenation lies in the left part, in the
right part, or straddles the boundary (a non-trivial split of the needle
into a suffix of the left part and a prefix of the right part). -/
theorem infix_append_cases (n x y : List Char) (h : n <:+: x ++ y) :
    n <:+: x ∨ n <:+: y ∨
    ∃ n1 n2, n = n1 ++ n2 ∧ n1 ≠ [] ∧ n2 ≠ [] ∧ n1 <:+ x ∧ n2 <+: y := by
  obtain ⟨s, t, hst⟩ := h
  have h' : x ++ y = s ++ (n ++ t) := by rw [← hst]; simp [List.append_assoc]
  rcases List.append_eq_append_iff.mp h' with ⟨a', hs, hy⟩ | ⟨c', hx, hnt⟩
  · right; left
    exact ⟨a', t, by rw [hy]; simp [List.append_assoc]⟩
  · rcases List.append_eq_append_iff.mp hnt with ⟨a'', hc', ht⟩ | ⟨c'', hn, hy2⟩
    · left
      exact ⟨s, a'', by rw [hx, hc']; simp [List.append_assoc]⟩
    · rcases eq_or_ne c'' [] with h2 | h2
      · left
        subst h2
        rw [List.append_nil] at hn
        exact ⟨s, [], by rw [hx, hn]; simp⟩
      · rcases eq_or_ne c' [] with h1 | h1
        · right; left
          subst h1
          rw [List.nil_append] at hn
          exact ⟨[], t, by rw [hy2, hn]; simp⟩
        · right; right
          exact ⟨c', c'', hn, h1, h2, ⟨s, hx.symm⟩, ⟨t, hy2.symm⟩⟩

/-- Non-trivial splits of a three-element list. -/
theorem split3 {p q w : Char} {n1 n2 : List Char} (h : [p, q, w] = n1 ++ n2)
    (h1 : n1 ≠ []) (h2 : n2 ≠ []) :
    (n1 = [p] ∧ n2 = [q, w]) ∨ (n1 = [p, q] ∧ n2 = [w]) := by
  rcases n1 with _ | ⟨a, _ | ⟨b, _ | ⟨e, t⟩⟩⟩
  · exact absurd rfl h1
  · left
    simp only [List.cons_append, List.nil_append] at h
    obtain ⟨ha, htl⟩ := List.cons.injEq .. ▸ h
    exact ⟨by rw [ha], by rw [← htl]⟩
  · right
    simp only [List.cons_append, List.nil_append] at h
    obtain ⟨ha, h'⟩ := List.cons.injEq .. ▸ h
    obtain ⟨hb, htl⟩ := List.cons.injEq .. ▸ h'
    exact ⟨by rw [ha, hb], by rw [← htl]⟩
  · exfalso
    simp only [List.cons_append] at h
    obtain ⟨_, h'⟩ := List.cons.injEq .. ▸ h
    obtain ⟨_, h''⟩ := List.cons.injEq .. ▸ h'
    obtain ⟨_, h3⟩ := List.cons.injEq .. ▸ h''
    exact h2 (List.append_eq_nil.mp h3.symm).2

/-- Non-trivial splits of a two-element list. -/
theorem split2 {p q : Char} {n1 n2 : List Char} (h : [p, q] = n1 ++ n2)
    (h1 : n1 ≠ []) (h2 : n2 ≠ []) : n1 = [p] ∧ n2 = [q] := by
  rcases n1 with _ | ⟨a, _ | ⟨b, t⟩⟩
  · exact absurd rfl h1
  · simp only [List.cons_append, List.nil_append] at h
    obtain ⟨ha, htl⟩ := List.cons.injEq .. ▸ h
    exact ⟨by rw [ha], by rw [← htl]⟩
  · exfalso
    simp only [List.cons_append] at h
    obtain ⟨_, h'⟩ := List.cons.injEq .. ▸ h
    obtain ⟨_, h3⟩ := List.cons.injEq .. ▸ h'
    exact h2 (List.append_eq_nil.mp h3.symm).2

/-- Exhaustive shape classification of `jsonEscChar`. -/
theorem jsonEscChar_shape (c : Char) :
    (jsonEscChar c = [c] ∧ c ≠ '"' ∧ c ≠ '\\') ∨
    (c = '"' ∧ jsonEscChar c = ['\\', '"']) ∨
    (c = '\\' ∧ jsonEscChar c = ['\\', '\\']) ∨
    (c = '\x08' ∧ jsonEscChar c = ['\\', 'b']) ∨
    (c = '\x0c' ∧ jsonEscChar c = ['\\', 'f']) ∨
    (c = '\n' ∧ jsonEscChar c = ['\\', 'n']) ∨
    (c = '\r' ∧ jsonEscChar c = ['\\', 'r']) ∨
    (c = '\t' ∧ jsonEscChar c = ['\\', 't']) ∨
    (jsonEscChar c = '\\' :: 'u' :: hexQuad c.toNat ∧ c.toNat < 65536) ∨
    (jsonEscChar c =
      ('\\' :: 'u' :: hexQuad (55296 + (c.toNat - 65536) / 1024)) ++
      ('\\' :: 'u' :: hexQuad (56320 + (c.toNat - 65536) % 1024)) ∧
     65536 ≤ c.toNat) := by
  unfold jsonEscChar
  split_ifs with h1 h2 h3 h4 h5 h6 h7 h8 h9
  · right; left; exact ⟨h1, rfl⟩
  · right; right; left; exact ⟨h2, rfl⟩
  · right; right; right; left; exact ⟨h3, rfl⟩
  · right; right; right; right; left; exact ⟨h4, rfl⟩
  · right; right; right; right; right; left; exact ⟨h5, rfl⟩
  · right; right; right; right; right; right; left; exact ⟨h6, rfl⟩
  · right; right; right; right; right; right; right; left; exact ⟨h7, rfl⟩
  · left; exact ⟨rfl, h1, h2⟩
  · right; right; right; right; right; right; right; right; left
    exact ⟨rfl, h9⟩
  · right; right; right; right; right; right; right; right; right
    exact ⟨rfl, by omega⟩

/-- Hex digits are lowercase hex characters, distinct from the structural
characters of the serialization. -/
theorem hexDigitChar_ne (j : Nat) (hj : j < 16) :
    hexDigitChar j ≠ '"' ∧ hexDigitChar j ≠ '\x7b' ∧ hexDigitChar j ≠ '\\' := by
  interval_cases j <;> exact ⟨by decide, by decide, by decide⟩

/-- Hex digits are injective. -/
theorem hexDigitChar_inj {a b : Nat} (ha : a < 16) (hb : b < 16)
    (h : hexDigitChar a = hexDigitChar b) : a = b := by
  interval_cases a <;> interval_cases b <;> first | rfl | exact absurd h (by decide)

/-- Neither the quote nor the opening brace occurs among the four digits
of a `hexQuad`. -/
theorem quote_brace_not_mem_hexQuad (n : Nat) :
    '"' ∉ hexQuad n ∧ '\x7b' ∉ hexQuad n := by
  have h16 : ∀ k : Nat, k % 16 < 16 := fun k => Nat.mod_lt _ (by decide)
  constructor <;>
    · intro hmem
      simp only [hexQuad, List.mem_cons, List.not_mem_nil, or_false] at hmem
      rcases hmem with h | h | h | h <;>
        first
          | exact absurd h.symm (hexDigitChar_ne _ (h16 _)).1
          | exact absurd h.symm (hexDigitChar_ne _ (h16 _)).2.1

/-- Every block produced by `jsonEscChar` is non-empty and never starts
with a quote. -/
theorem jsonEscChar_head (c : Char) :
    ∃ hd tl, jsonEscChar c = hd :: tl ∧ hd ≠ '"' := by
  rcases jsonEscChar_shape c with ⟨h, hq, _⟩ | ⟨_, h⟩ | ⟨_, h⟩ | ⟨_, h⟩ |
    ⟨_, h⟩ | ⟨_, h⟩ | ⟨_, h⟩ | ⟨_, h⟩ | ⟨h, _⟩ | ⟨h, _⟩
  · exact ⟨c, [], h, hq⟩
  all_goals rw [h]
  all_goals exact ⟨'\\', _, rfl, by decide⟩

/-- If a quote occurs in a `jsonEscChar` block, the block is the escaped
quote `\"`. -/
theorem quote_mem_jsonEscChar {c : Char} (h : '"' ∈ jsonEscChar c) :
    jsonEscChar c = ['\\', '"'] := by
  rcases jsonEscChar_shape c with ⟨hs, hq, _⟩ | ⟨_, hs⟩ | ⟨_, hs⟩ | ⟨_, hs⟩ |
    ⟨_, hs⟩ | ⟨_, hs⟩ | ⟨_, hs⟩ | ⟨_, hs⟩ | ⟨hs, _⟩ | ⟨hs, _⟩ <;> rw [hs] at h ⊢
  · exact absurd (List.mem_singleton.mp h).symm hq
  · simp at h
  · simp at h
  · simp at h
  · simp at h
  · simp at h
  · simp at h
  · exfalso
    rcases List.mem_cons.mp h with h' | h'
    · exact absurd h' (by decide)
    · rcases List.mem_cons.mp h' with h'' | h''
      · exact absurd h'' (by decide)
      · exact absurd h'' (quote_brace_not_mem_hexQuad _).1
  · exfalso
    rw [List.cons_append, List.cons_append] at h
    rcases List.mem_cons.mp h with h' | h'
    · exact absurd h' (by decide)
    · rcases List.mem_cons.mp h' with h'' | h''
      · exact absurd h'' (by decide)
      · rcases List.mem_append.mp h'' with h3 | h3
        · exact absurd h3 (quote_brace_not_mem_hexQuad _).1
        · rcases List.mem_cons.mp h3 with h4 | h4
          · exact absurd h4 (by decide)
          · rcases List.mem_cons.mp h4 with h5 | h5
            · exact absurd h5 (by decide)
            · exact absurd h5 (quote_brace_not_mem_hexQuad _).1

/-- Unfolding of `jsonEsc` on nil. -/
theorem jsonEsc_nil : jsonEsc [] = [] := rfl

/-- Unfolding of `jsonEsc` on cons. -/
theorem jsonEsc_cons (c : Char) (s : List Char) :
    jsonEsc (c :: s) = jsonEscChar c ++ jsonEsc s := rfl

/-- An escaped string body never starts with a quote. -/
theorem jsonEsc_ne_quote_cons (s : List Char) (r : List Char) :
    jsonEsc s ≠ '"' :: r := by
  cases s with
  | nil => rw [jsonEsc_nil]; simp
  | cons c s' =>
    obtain ⟨hd, tl, he, hq⟩ := jsonEscChar_head c
    rw [jsonEsc_cons, he]
    intro hcontra
    rw [List.cons_append] at hcontra
    exact hq (List.cons.injEq .. ▸ hcontra).1

/-- The two-character sequence brace-quote never occurs inside an escaped
string body: every quote in it is directly preceded by a backslash. -/
theorem no_brace_quote_infix_jsonEsc (s : List Char) :
    ¬ (['\x7b', '"'] <:+: jsonEsc s) := by
  induction s with
  | nil =>
    rw [jsonEsc_nil]
    intro h
    obtain ⟨a, b, hab⟩ := h
    simp at hab
  | cons c s' ih =>
    rw [jsonEsc_cons]
    intro h
    rcases infix_append_cases _ _ _ h with h1 | h1 |
      ⟨n1, n2, hsplit, hn1, hn2, hsuf, hpre⟩
    · have hq : '"' ∈ jsonEscChar c := h1.subset (by decide)
      have hb : '\x7b' ∈ jsonEscChar c := h1.subset (by decide)
      rw [quote_mem_jsonEscChar hq] at hb
      simp at hb
    · exact ih h1
    · obtain ⟨h1', h2'⟩ := split2 hsplit hn1 hn2
      subst h1'
      subst h2'
      obtain ⟨rr, hrr⟩ := hpre
      exact jsonEsc_ne_quote_cons s' rr hrr.symm

/-- The opening pattern of a serialized config never occurs inside a JSON
string literal. -/
theorem no_pat3_infix_jsonStr (s : String) : ¬ (pat3 <:+: jsonStr s) := by
  have hstr : jsonStr s = ['"'] ++ (jsonEsc s.data ++ ['"']) := rfl
  rw [hstr]
  intro h
  rcases infix_append_cases _ _ _ h with h1 | h1 |
    ⟨n1, n2, hsplit, hn1, hn2, hsuf, hpre⟩
  · have := h1.subset (show '\x7b' ∈ pat3 by decide)
    simp at this
  · rcases infix_append_cases _ _ _ h1 with h2 | h2 |
      ⟨n1, n2, hsplit, hn1, hn2, hsuf, hpre⟩
    · apply no_brace_quote_infix_jsonEsc s.data
      obtain ⟨a, b, hab⟩ := h2
      exact ⟨a, 'i' :: b, by rw [← hab]; simp [pat3]⟩
    · have := h2.subset (show '\x7b' ∈ pat3 by decide)
      simp at this
    · obtain h12 | h12 := split3 hsplit hn1 hn2
      · obtain ⟨he1, he2⟩ := h12
        subst he2
        obtain ⟨rr, hrr⟩ := hpre
        have := congrArg List.length hrr
        simp at this
      · obtain ⟨he1, he2⟩ := h12
        subst he1
        exact no_brace_quote_infix_jsonEsc s.data hsuf.isInfix
  · obtain h12 | h12 := split3 hsplit hn1 hn2
    · obtain ⟨he1, _⟩ := h12
      subst he1
      obtain ⟨ss, hss⟩ := hsuf
      rcases ss with _ | ⟨a, ss'⟩
      · simp at hss
      · have := congrArg List.length hss
        simp at this
    · obtain ⟨he1, _⟩ := h12
      subst he1
      obtain ⟨ss, hss⟩ := hsuf
      rcases ss with _ | ⟨a, ss'⟩
      · simp at hss
      · have := congrArg List.length hss
        simp at this

/-- A JSON string literal ends with its closing quote, not a brace. -/
theorem not_brace_suffix_jsonStr (s : String) :
    ¬ (['\x7b'] <:+ jsonStr s) := by
  intro h
  obtain ⟨t, ht⟩ := h
  have h1 : (t ++ ['\x7b']).getLast? = some '\x7b' := List.getLast?_concat t
  have h2 : jsonStr s = ('"' :: jsonEsc s.data) ++ ['"'] := rfl
  rw [ht, h2, List.getLast?_concat] at h1
  simp at h1

/-- The opening pattern never occurs inside a JSON value. -/
theorem no_pat3_infix_jsonOpt (v : Option String) :
    ¬ (pat3 <:+: jsonOpt v) := by
  cases v with
  | none => exact by decide
  | some s => exact no_pat3_infix_jsonStr s

/-- A JSON value never ends with a brace. -/
theorem not_brace_suffix_jsonOpt (v : Option String) :
    ¬ (['\x7b'] <:+ jsonOpt v) := by
  cases v with
  | none => exact by decide
  | some s => exact not_brace_suffix_jsonStr s

/-- A list starting with a fixed character differs from any list starting
with a different one. -/
theorem ne_cons_head {a b : Char} (l y : List Char) (h : a ≠ b) :
    ∀ r, (a :: l) ++ y ≠ b :: r := by
  intro r hh
  rw [List.cons_append] at hh
  exact h (List.cons.injEq .. ▸ hh).1

/-- Chaining lemma: the opening pattern does not occur in `x ++ y` when it
occurs in neither part and the two boundary straddles are excluded. -/
theorem noPat3_append (x y : List Char)
    (hx : ¬ pat3 <:+: x) (hy : ¬ pat3 <:+: y)
    (hbrace : ¬ (['\x7b'] <:+ x) ∨ ∀ r, y ≠ '"' :: 'i' :: r)
    (hbq : ¬ (['\x7b', '"'] <:+ x) ∨ ∀ r, y ≠ 'i' :: r) :
    ¬ pat3 <:+: x ++ y := by
  intro h
  rcases infix_append_cases _ _ _ h with h1 | h1 |
    ⟨n1, n2, hsplit, hn1, hn2, hsuf, hpre⟩
  · exact hx h1
  · exact hy h1
  · obtain h12 | h12 := split3 hsplit hn1 hn2
    · obtain ⟨he1, he2⟩ := h12
      subst he1
      subst he2
      rcases hbrace with hb | hb
      · exact hb hsuf
      · obtain ⟨rr, hrr⟩ := hpre
        exact hb rr hrr.symm
    · obtain ⟨he1, he2⟩ := h12
      subst he1
      subst he2
      rcases hbq with hb | hb
      · exact hb hsuf
      · obtain ⟨rr, hrr⟩ := hpre
        exact hb rr hrr.symm

/-- The opening pattern occurs nowhere in the serialized config after its
opening brace. -/
theorem no_pat3_infix_dumpsTail (c : ScrapeConfig) :
    ¬ (pat3 <:+: dumpsTail c) := by
  have e1 : (", \"title_selector\": ".data : List Char) =
    ',' :: " \"title_selector\": ".data := rfl
  have e2 : (", \"link_selector\": ".data : List Char) =
    ',' :: " \"link_selector\": ".data := rfl
  have e3 : (", \"description_selector\": ".data : List Char) =
    ',' :: " \"description_selector\": ".data := rfl
  have e4 : (", \"image_selector\": ".data : List Char) =
    ',' :: " \"image_selector\": ".data := rfl
  have e5 : (", \"date_selector\": ".data : List Char) =
    ',' :: " \"date_selector\": ".data := rfl
  have e6 : (", \"date_format\": ".data : List Char) =
    ',' :: " \"date_format\": ".data := rfl
  unfold dumpsTail
  refine noPat3_append _ _ (by decide) ?_ (Or.inl (by decide)) (Or.inl (by decide))
  refine noPat3_append _ _ (no_pat3_infix_jsonStr _) ?_
    (Or.inl (not_brace_suffix_jsonStr _))
    (Or.inr (by rw [e1]; exact ne_cons_head _ _ (by decide)))
  refine noPat3_append _ _ (by decide) ?_ (Or.inl (by decide)) (Or.inl (by decide))
  refine noPat3_append _ _ (no_pat3_infix_jsonStr _) ?_
    (Or.inl (not_brace_suffix_jsonStr _))
    (Or.inr (by rw [e2]; exact ne_cons_head _ _ (by decide)))
  refine noPat3_append _ _ (by decide) ?_ (Or.inl (by decide)) (Or.inl (by decide))
  refine noPat3_append _ _ (no_pat3_infix_jsonStr _) ?_
    (Or.inl (not_brace_suffix_jsonStr _))
    (Or.inr (by rw [e3]; exact ne_cons_head _ _ (by decide)))
  refine noPat3_append _ _ (by decide) ?_ (Or.inl (by decide)) (Or.inl (by decide))
  refine noPat3_append _ _ (no_pat3_infix_jsonOpt _) ?_
    (Or.inl (not_brace_suffix_jsonOpt _))
    (Or.inr (by rw [e4]; exact ne_cons_head _ _ (by decide)))
  refine noPat3_append _ _ (by decide) ?_ (Or.inl (by decide)) (Or.inl (by decide))
  refine noPat3_append _ _ (no_pat3_infix_jsonOpt _) ?_
    (Or.inl (not_brace_suffix_jsonOpt _))
    (Or.inr (by rw [e5]; exact ne_cons_head _ _ (by decide)))
  refine noPat3_append _ _ (by decide) ?_ (Or.inl (by decide)) (Or.inl (by decide))
  refine noPat3_append _ _ (no_pat3_infix_jsonOpt _) ?_
    (Or.inl (not_brace_suffix_jsonOpt _))
    (Or.inr (by rw [e6]; exact ne_cons_head _ _ (by decide)))
  refine noPat3_append _ _ (by decide) ?_ (Or.inl (by decide)) (Or.inl (by decide))
  refine noPat3_append _ _ (no_pat3_infix_jsonStr _) (by decide)
    (Or.inl (not_brace_suffix_jsonStr _))
    (Or.inr ?_)
  intro r hh
  exact absurd (List.cons.injEq .. ▸ hh).1 (by decide)

/-- The serialized config opens with brace, quote, `i` (of
`item_selector`). -/
theorem dumpsTail_head (c : ScrapeConfig) :
    ∃ z, dumpsTail c = '"' :: 'i' :: z := by
  have e0 : ("\"item_selector\": ".data : List Char) =
    '"' :: 'i' :: "tem_selector\": ".data := rfl
  unfold dumpsTail
  rw [e0]
  exact ⟨_, rfl⟩

/-- Boundary lemma: the url/json boundary of `f"{url}{json.dumps(config)}"`
is unambiguous — equal serializations split identically. -/
theorem cacheKeyString_split {u1 u2 : String} {c1 c2 : ScrapeConfig}
    (h : cacheKeyString u1 c1 = cacheKeyString u2 c2) :
    u1 = u2 ∧ dumpsTail c1 = dumpsTail c2 := by
  have hmain : ∀ (v1 v2 : String) (d1 d2 : ScrapeConfig),
      v1.data ++ dumpsConfig d1 = v2.data ++ dumpsConfig d2 →
      (∃ a', v2.data = v1.data ++ a' ∧ dumpsConfig d1 = a' ++ dumpsConfig d2) →
      v1 = v2 ∧ dumpsTail d1 = dumpsTail d2 := by
    intro v1 v2 d1 d2 hh ⟨a', ha1, ha2⟩
    rcases a' with _ | ⟨e, a''⟩
    · rw [List.append_nil] at ha1
      have hv : v1 = v2 := by
        cases v1
        cases v2
        simp at ha1
        rw [ha1]
      refine ⟨hv, ?_⟩
      rw [hv] at hh
      have := List.append_cancel_left hh
      simp only [dumpsConfig] at this
      exact List.cons.injEq .. ▸ this |>.2
    · exfalso
      simp only [dumpsConfig, List.cons_append] at ha2
      obtain ⟨he, htail⟩ := List.cons.injEq .. ▸ ha2
      obtain ⟨z, hz⟩ := dumpsTail_head d2
      rw [hz] at htail
      apply no_pat3_infix_dumpsTail d1
      subst he
      exact ⟨a'', z, by rw [htail]; simp [pat3]⟩
  have hh : u1.data ++ dumpsConfig c1 = u2.data ++ dumpsConfig c2 := h
  rcases List.append_eq_append_iff.mp hh with ⟨a', ha1, ha2⟩ | ⟨a', ha1, ha2⟩
  · exact hmain u1 u2 c1 c2 hh ⟨a', ha1, ha2⟩
  · have := hmain u2 u1 c2 c1 hh.symm ⟨a', ha1, ha2⟩
    exact ⟨this.1.symm, this.2.symm⟩

/-- Four-digit hex groups of values below 0x10000 are a prefix code. -/
theorem hexQuad_append_inj {m n : Nat} (hm : m < 65536) (hn : n < 65536)
    {u v : List Char} (h : hexQuad m ++ u = hexQuad n ++ v) : m = n ∧ u = v := by
  have hlt : ∀ k : Nat, k % 16 < 16 := fun k => Nat.mod_lt _ (by decide)
  simp only [hexQuad, List.cons_append, List.nil_append, List.cons.injEq] at h
  obtain ⟨h1, h2, h3, h4, h5⟩ := h
  have d1 := hexDigitChar_inj (hlt _) (hlt _) h1
  have d2 := hexDigitChar_inj (hlt _) (hlt _) h2
  have d3 := hexDigitChar_inj (hlt _) (hlt _) h3
  have d4 := hexDigitChar_inj (hlt _) (hlt _) h4
  exact ⟨by omega, h5⟩

/-- The `jsonEscChar` blocks form a prefix code: equal concatenations with
arbitrary tails force the escaped characters and the tails to agree. -/
theorem jsonEscChar_append_inj (c d : Char) (u v : List Char)
    (h : jsonEscChar c ++ u = jsonEscChar d ++ v) : c = d ∧ u = v := by
  have hvalc : c.toNat < 55296 ∨ (57343 < c.toNat ∧ c.toNat < 1114112) := c.valid
  have hvald : d.toNat < 55296 ∨ (57343 < d.toNat ∧ d.toNat < 1114112) := d.valid
  have hvc : c.toNat < 1114112 := by rcases hvalc with h' | h' <;> omega
  have hvd : d.toNat < 1114112 := by rcases hvald with h' | h' <;> omega
  have hvc2 : c.toNat < 55296 ∨ 57343 < c.toNat := by
    rcases hvalc with h' | h'
    · exact Or.inl h'
    · exact Or.inr h'.1
  have hvd2 : d.toNat < 55296 ∨ 57343 < d.toNat := by
    rcases hvald with h' | h'
    · exact Or.inl h'
    · exact Or.inr h'.1
  rcases jsonEscChar_shape c with ⟨hc, hcq, hcb⟩ | ⟨hc1, hc⟩ | ⟨hc1, hc⟩ |
    ⟨hc1, hc⟩ | ⟨hc1, hc⟩ | ⟨hc1, hc⟩ | ⟨hc1, hc⟩ | ⟨hc1, hc⟩ |
    ⟨hc, hclt⟩ | ⟨hc, hcge⟩ <;>
  rcases jsonEscChar_shape d with ⟨hd, hdq, hdb⟩ | ⟨hd1, hd⟩ | ⟨hd1, hd⟩ |
    ⟨hd1, hd⟩ | ⟨hd1, hd⟩ | ⟨hd1, hd⟩ | ⟨hd1, hd⟩ | ⟨hd1, hd⟩ |
    ⟨hd, hdlt⟩ | ⟨hd, hdge⟩ <;>
  (try subst hc1) <;> (try subst hd1) <;> rw [hc] at h <;> (try rw [hd] at h) <;> simp at h
  all_goals first
    | exact ⟨rfl, h⟩
    | exact ⟨h.1, h.2⟩
    | exact absurd h.1 hcb
    | exact absurd h.1.symm hdb
    | (obtain ⟨he, hu⟩ := hexQuad_append_inj hclt hdlt h
       exact ⟨Char.ext (UInt32.ext he), hu⟩)
    | (exfalso
       have hq := (hexQuad_append_inj hclt
         (show 55296 + (d.toNat - 65536) / 1024 < 65536 by omega) h).1
       rcases hvc2 with h2 | h2 <;> omega)
    | (exfalso
       have hq := (hexQuad_append_inj
         (show 55296 + (c.toNat - 65536) / 1024 < 65536 by omega) hdlt h).1
       rcases hvd2 with h2 | h2 <;> omega)
    | (obtain ⟨he1, hrest⟩ := hexQuad_append_inj
         (show 55296 + (c.toNat - 65536) / 1024 < 65536 by omega)
         (show 55296 + (d.toNat - 65536) / 1024 < 65536 by omega) h
       simp at hrest
       obtain ⟨he2, hu⟩ := hexQuad_append_inj
         (show 56320 + (c.toNat - 65536) % 1024 < 65536 by omega)
         (show 56320 + (d.toNat - 65536) % 1024 < 65536 by omega) hrest
       have hcd : c.toNat = d.toNat := by omega
       exact ⟨Char.ext (UInt32.ext hcd), hu⟩)

/-- Escaped string bodies followed by their closing quote are uniquely
decodable. -/
theorem jsonEsc_quote_inj : ∀ (a b x y : List Char),
    jsonEsc a ++ '"' :: x = jsonEsc b ++ '"' :: y → a = b ∧ x = y := by
  intro a
  induction a with
  | nil =>
    intro b x y h
    cases b with
    | nil =>
      rw [jsonEsc_nil] at h
      simp at h
      exact ⟨rfl, h⟩
    | cons d b' =>
      exfalso
      rw [jsonEsc_nil, jsonEsc_cons] at h
      obtain ⟨hd, tl, he, hq⟩ := jsonEscChar_head d
      rw [he] at h
      simp only [List.nil_append, List.cons_append] at h
      exact hq ((List.cons.injEq .. ▸ h).1).symm
  | cons c a' ih =>
    intro b x y h
    cases b with
    | nil =>
      exfalso
      rw [jsonEsc_nil, jsonEsc_cons] at h
      obtain ⟨hd, tl, he, hq⟩ := jsonEscChar_head c
      rw [he] at h
      simp only [List.nil_append, List.cons_append] at h
      exact hq (List.cons.injEq .. ▸ h).1
    | cons d b' =>
      rw [jsonEsc_cons, jsonEsc_cons] at h
      rw [List.append_assoc, List.append_assoc] at h
      obtain ⟨hcd, hrest⟩ := jsonEscChar_append_inj c d _ _ h
      obtain ⟨hab, hxy⟩ := ih b' x y hrest
      subst hcd
      subst hab
      exact ⟨rfl, hxy⟩

/-- JSON string literals are a prefix code. -/
theorem jsonStr_append_inj {s t : String} {x y : List Char}
    (h : jsonStr s ++ x = jsonStr t ++ y) : s = t ∧ x = y := by
  have hs : jsonStr s ++ x = '"' :: (jsonEsc s.data ++ ('"' :: x)) := by
    simp [jsonStr, List.cons_append, List.append_assoc]
  have ht' : jsonStr t ++ y = '"' :: (jsonEsc t.data ++ ('"' :: y)) := by
    simp [jsonStr, List.cons_append, List.append_assoc]
  rw [hs, ht'] at h
  have h2 := (List.cons.injEq .. ▸ h).2
  obtain ⟨hd, hxy⟩ := jsonEsc_quote_inj s.data t.data x y h2
  have hst : s = t := by
    cases s
    cases t
    simp_all
  exact ⟨hst, hxy⟩

/-- JSON values (`null` or a string literal) are a prefix code. -/
theorem jsonOpt_append_inj {v w : Option String} {x y : List Char}
    (h : jsonOpt v ++ x = jsonOpt w ++ y) : v = w ∧ x = y := by
  cases v with
  | none =>
    cases w with
    | none =>
      simp only [jsonOpt] at h
      simp at h
      exact ⟨rfl, h⟩
    | some t =>
      exfalso
      simp only [jsonOpt] at h
      rw [show jsonStr t = '"' :: (jsonEsc t.data ++ ['"']) from rfl] at h
      simp only [List.cons_append] at h
      exact absurd (List.cons.injEq .. ▸ h).1 (by decide)
  | some s =>
    cases w with
    | none =>
      exfalso
      simp only [jsonOpt] at h
      rw [show jsonStr s = '"' :: (jsonEsc s.data ++ ['"']) from rfl] at h
      simp only [List.cons_append] at h
      exact absurd (List.cons.injEq .. ▸ h).1 (by decide)
    | some t =>
      simp only [jsonOpt] at h
      obtain ⟨hst, hxy⟩ := jsonStr_append_inj h
      exact ⟨by rw [hst], hxy⟩

/-- `json.dumps` of the config dict is injective. -/
theorem dumpsTail_inj {c1 c2 : ScrapeConfig} (h : dumpsTail c1 = dumpsTail c2) :
    c1 = c2 := by
  unfold dumpsTail at h
  have h1 := List.append_cancel_left h
  obtain ⟨e1, h2⟩ := jsonStr_append_inj h1
  have h3 := List.append_cancel_left h2
  obtain ⟨e2, h4⟩ := jsonStr_append_inj h3
  have h5 := List.append_cancel_left h4
  obtain ⟨e3, h6⟩ := jsonStr_append_inj h5
  have h7 := List.append_cancel_left h6
  obtain ⟨e4, h8⟩ := jsonOpt_append_inj h7
  have h9 := List.append_cancel_left h8
  obtain ⟨e5, h10⟩ := jsonOpt_append_inj h9
  have h11 := List.append_cancel_left h10
  obtain ⟨e6, h12⟩ := jsonOpt_append_inj h11
  have h13 := List.append_cancel_left h12
  obtain ⟨e7, _⟩ := jsonStr_append_inj h13
  cases c1
  cases c2
  simp_all

/-- Claim C7, amended: the cache key is deterministic (a pure function of
the `(url, config)` pair), and the string fed to md5 —
`f"{url}{json.dumps(config)}"` — is injective: distinct pairs always
produce distinct md5 inputs, so equal keys for distinct pairs require an
md5 collision (which must exist by cardinality but is not constructible;
see the counterexample). -/
theorem C7_key_deterministic_and_serialization_injective :
    (∀ (u1 u2 : String) (c1 c2 : ScrapeConfig), u1 = u2 → c1 = c2 →
      cache_key u1 c1 = cache_key u2 c2) ∧
    (∀ (u1 u2 : String) (c1 c2 : ScrapeConfig),
      cacheKeyString u1 c1 = cacheKeyString u2 c2 → u1 = u2 ∧ c1 = c2) := by
  constructor
  · intro u1 u2 c1 c2 hu hc
    rw [hu, hc]
  · intro u1 u2 c1 c2 h
    obtain ⟨hu, ht⟩ := cacheKeyString_split h
    exact ⟨hu, dumpsTail_inj ht⟩

theorem C7_key_deterministic_and_serialization_injective_witness :
    cache_key "https://example.com" cConfigDefault =
      cache_key "https://example.com" cConfigDefault ∧
    ("https://example.com" : String) = "https://example.com" ∧
    cConfigDefault = cConfigDefault :=
  ⟨(C7_key_deterministic_and_serialization_injective).1 "https://example.com"
      "https://example.com" cConfigDefault cConfigDefault rfl rfl,
   ((C7_key_deterministic_and_serialization_injective).2 "https://example.com"
      "https://example.com" cConfigDefault cConfigDefault rfl).1,
   ((C7_key_deterministic_and_serialization_injective).2 "https://example.com"
      "https://example.com" cConfigDefault cConfigDefault rfl).2⟩
